import Mathlib

/-!
# lang-translator: the browser controller `app/static/js/main.js`

The controller is callback driven. It is embedded as a state machine: `State` holds the
script variables (lines 30-36), the parts of the page the script reads or writes, and the
bookkeeping of the browser (sockets created, pending timers, requests in flight, the trace of
network effects). Every callback of the script is a function `State → State`; an `async`
function is cut at its `await`s into the part that runs before the suspension and the part
that runs when the awaited promise settles. `step` dispatches one browser event to the
callback the script registered for it.

Strings are sequences of characters; numbers carried by progress messages are rationals
(every finite double is one); the bodies of responses and the messages of the channel have
the fields section 6 of the specification gives them. What the browser provides and the
script does not define (`String.prototype.toLowerCase`, the texts of the exceptions it
throws, the digits it prints for a number above 2^53) is a parameter, `Browser`. The
document of the page is not part of the sources: the state at load is `init html` for an
arbitrary page `html`.

Left out: `checkApiStatus` (lines 107-134), which only inserts a banner; the `active` class
of the drop area; the removal of a toast.
-/

namespace LangTranslator

/-! ## String primitives of the language -/

/-- The test `s.includes(pat)` on the character lists: `pat` occurs in the list as a
contiguous block. -/
def includesAux (pat : List Char) : List Char → Bool
  | [] => pat.isEmpty
  | c :: cs => pat.isPrefixOf (c :: cs) || includesAux pat cs

/-- The method `s.includes(pat)`. -/
def includes (s pat : String) : Bool := includesAux pat.data s.data

/-- The first occurrence of `pat` in the list is replaced by `rep`; a list without an
occurrence is returned as it is. -/
def replaceFirst (pat rep : List Char) : List Char → List Char
  | [] => if pat.isEmpty then rep else []
  | c :: cs =>
    if pat.isPrefixOf (c :: cs) then rep ++ (c :: cs).drop pat.length
    else c :: replaceFirst pat rep cs

/-- The method `s.replace(pat, rep)` for a string pattern, and a replacement without `$`. -/
def replace (s pat rep : String) : String := ⟨replaceFirst pat.data rep.data s.data⟩

/-- Truthiness of a value that is `null`, `undefined` or a string: only a non-empty string
is truthy. -/
def truthy : Option String → Bool
  | none => false
  | some v => v != ""

/-- The expression `v || fallback` for a value that is absent or a string. -/
def orElse (v : Option String) (fallback : String) : String :=
  if truthy v then v.getD fallback else fallback

/-- The function `Math.round`: the nearest integer, a tie going up. -/
def mathRound (x : ℚ) : Int := ⌊x + 1 / 2⌋

/-- What the browser provides. -/
structure Browser where
  /-- The method `String.prototype.toLowerCase`. -/
  toLowerCase : String → String
  /-- The empty string has no letter to lower. -/
  toLowerCase_empty : toLowerCase "" = ""
  /-- The message of the `InvalidStateError` that `send` throws on a connecting socket. -/
  sendErrorMessage : String
  /-- The message of the `TypeError` thrown when a property of `null` is read. -/
  nullErrorMessage : String
  /-- The string the language gives for an integer-valued number of magnitude above 2^53,
  where it prints the shortest digits that identify the double, with an exponent from
  10^21 on. -/
  largeNumberToString : Int → String

/-- A browser whose `toLowerCase` lowers the ASCII letters, for evaluation on ASCII input. -/
def asciiBrowser : Browser where
  toLowerCase := fun v => ⟨v.data.map Char.toLower⟩
  toLowerCase_empty := rfl
  sendErrorMessage := "Failed to execute send on WebSocket: Still in CONNECTING state."
  nullErrorMessage := "Cannot read properties of null"
  largeNumberToString := fun r => toString r

/-! ## Data exchanged with the server -/

/-- One page of a document: `{ page_number, content }`. -/
structure Page where
  page_number : Nat
  content : String
  deriving DecidableEq, Repr

/-- The body of a successful `POST /api/upload`. -/
structure UploadData where
  file_id : String
  pages : List Page
  deriving DecidableEq, Repr

/-- The body of a successful `POST /api/translate` or `GET /api/translate`. -/
structure TranslationData where
  pages : List Page
  export_url : Option String
  deriving DecidableEq, Repr

/-- The body of a response that is not 2xx: `{ detail }`. -/
structure ErrorData where
  detail : Option String
  deriving DecidableEq, Repr

/-- How a `fetch` followed by `response.json()` ends. The `Except` is the outcome of
`response.json()`: the parsed body, or the message of the error it throws. -/
inductive Response (α : Type) where
  /-- The promise of `fetch` is rejected with an error carrying this message. -/
  | networkError (message : String)
  /-- A response with `response.ok` false. -/
  | notOk (body : Except String ErrorData)
  /-- A response with `response.ok` true. -/
  | ok (body : Except String α)

/-- A file handed over by the file input or by a drop. -/
structure File where
  name : String
  type : String
  deriving DecidableEq, Repr

/-- A message of the progress channel after `JSON.parse`, by its `status`. -/
inductive WsMessage where
  | connected
  | translating (progress : ℚ) (message : String)
  | page_completed (progress : ℚ) (message : String)
  | completed (export_url : String)
  | error (message : String)
  /-- Any other `status`: no `case` of the `switch` matches. -/
  | other (status : String)

/-! ## The state -/

/-- The constants of `WebSocket.readyState`. -/
inductive ReadyState where
  | connecting
  | open
  | closing
  | closed
  deriving DecidableEq, Repr

/-- Where the invocation of `startTranslation` that created a socket stands. -/
inductive RunPc where
  /-- Suspended at `await setupWebSocket()`: the promise is pending. -/
  | awaitSetup
  /-- Suspended at the 500 ms wait. -/
  | settling
  /-- Inside `translatePdf`, suspended at `await fetch(/api/translate)`. -/
  | awaitResponse
  /-- The invocation has returned. -/
  | finished
  deriving DecidableEq, Repr

/-- A `WebSocket` object created by `setupWebSocket`, with the invocation that awaits it. -/
structure Socket where
  readyState : ReadyState
  run : RunPc
  deriving DecidableEq, Repr

/-- A callback registered with `setTimeout` and not yet run. -/
inductive Timer where
  /-- Line 370: resumes invocation `k` of `startTranslation` after 500 ms. -/
  | settle (k : Nat)
  /-- Lines 303-313: the callback of the `completed` message; it captured `data.export_url`. -/
  | wsCompleted (export_url : String)
  /-- Lines 424-436: the callback of the successful translate response. -/
  | httpCompleted
  deriving DecidableEq, Repr

/-- What the script does to the outside, in the order it does it. The socket numbers tell
which object or invocation acted. -/
inductive Effect where
  /-- The request `POST /api/upload`. -/
  | postUpload (file : File)
  /-- The call `new WebSocket(wsUrl)` for the path `/api/ws/translate/` followed by the file
  identifier; it creates socket `k`. -/
  | wsCreate (k : Nat) (fileId : String)
  /-- The call `websocket.close()` on socket `k`. -/
  | wsClose (k : Nat)
  /-- The handler `onopen` of socket `k` ran (it logs that the connection is established). -/
  | opened (k : Nat)
  /-- The call `websocket.send` of the `start_translation` message on socket `j`. -/
  | wsSend (j : Nat) (fileId language : String)
  /-- The request `POST /api/translate` of invocation `k`. -/
  | postTranslate (k : Nat) (fileId language : String)
  /-- The request `GET /api/translate` of `fetchTranslation`. -/
  | getTranslation (fileId language : String)
  deriving DecidableEq, Repr

/-- A child of the language dropdown. -/
inductive DropdownItem where
  /-- A clickable language entry. -/
  | lang (name : String)
  /-- The entry with the text `No languages found`; it has no click handler. -/
  | noResult
  deriving DecidableEq, Repr

/-- The variables of the script, the page, and the bookkeeping of the browser. -/
structure State where
  -- variables, lines 30-36
  fileId : Option String
  pdfData : Option UploadData
  selectedLanguage : Option String
  translationData : Option TranslationData
  languages : List String
  websocket : Option Nat
  websocketReady : Bool
  -- the browser
  sockets : List Socket
  timers : List Timer
  pendingUploads : Nat
  pendingFetches : Nat
  languagesPending : Bool
  log : List Effect
  /-- The messages of the toasts `showError` has shown, oldest first. -/
  notifications : List String
  -- the page
  fileNameText : String
  uploadStatusHidden : Bool
  uploadProgressHtml : String
  translationSectionHidden : Bool
  languageSearchValue : String
  dropdownItems : List DropdownItem
  dropdownHidden : Bool
  translateBtnDisabled : Bool
  progressContainerHidden : Bool
  progressIconClass : String
  progressStatus : String
  progressPercentage : String
  progressBarWidth : String
  progressDetails : String
  progressDetailsRed : Bool
  translationCompleteHidden : Bool
  downloadHref : String
  downloadMdHref : String
  resultsSectionHidden : Bool
  pageOptions : List (Nat × String)
  pageSelectorValue : Option Nat
  originalText : String
  translatedText : String
  deriving DecidableEq, Repr

/-- The state when the listener of `DOMContentLoaded` has run: the page is as the document
`html` has it, the variables have their initial values, and `fetchLanguages` has issued its
request. -/
def init (html : State) : State :=
  { html with
    fileId := none, pdfData := none, selectedLanguage := none, translationData := none,
    languages := [], websocket := none, websocketReady := false,
    sockets := [], timers := [], pendingUploads := 0, pendingFetches := 0,
    languagesPending := true, log := [], notifications := [] }

/-- A page for evaluation: the sections after the upload area are hidden and the translate
button is disabled. -/
def blankPage : State where
  fileId := none
  pdfData := none
  selectedLanguage := none
  translationData := none
  languages := []
  websocket := none
  websocketReady := false
  sockets := []
  timers := []
  pendingUploads := 0
  pendingFetches := 0
  languagesPending := true
  log := []
  notifications := []
  fileNameText := ""
  uploadStatusHidden := true
  uploadProgressHtml := ""
  translationSectionHidden := true
  languageSearchValue := ""
  dropdownItems := []
  dropdownHidden := true
  translateBtnDisabled := true
  progressContainerHidden := true
  progressIconClass := ""
  progressStatus := ""
  progressPercentage := "0%"
  progressBarWidth := "0%"
  progressDetails := ""
  progressDetailsRed := false
  translationCompleteHidden := true
  downloadHref := "#"
  downloadMdHref := "#"
  resultsSectionHidden := true
  pageOptions := []
  pageSelectorValue := none
  originalText := ""
  translatedText := ""

/-! ## The functions of the script -/

/-- The function `showError` (lines 522-553): a toast with the message is added to the
page. That a toast goes away after five seconds or on its close button is not modelled:
`notifications` records every toast shown. -/
def showError (s : State) (message : String) : State :=
  { s with notifications := s.notifications ++ [message] }

/-- The function `showLanguageDropdown` (lines 191-214). -/
def showLanguageDropdown (s : State) : State :=
  if s.languages.length = 0 then s
  else { s with dropdownItems := s.languages.map DropdownItem.lang, dropdownHidden := false }

/-- The function `filterLanguages` (lines 216-253), the listener of `input` on the search
box. -/
def filterLanguages (b : Browser) (s : State) : State :=
  let searchTerm := b.toLowerCase s.languageSearchValue
  if searchTerm = "" then showLanguageDropdown s
  else
    let filteredLanguages :=
      s.languages.filter (fun lang => includes (b.toLowerCase lang) searchTerm)
    if filteredLanguages.length = 0 then
      { s with dropdownItems := [DropdownItem.noResult], dropdownHidden := false }
    else
      { s with dropdownItems := filteredLanguages.map DropdownItem.lang,
               dropdownHidden := false }

/-- The click listener of a language entry (lines 203-208 and 241-246); the click then
reaches the listener of the document (lines 81-85), which hides the dropdown again. -/
def selectLanguage (s : State) (lang : String) : State :=
  { s with languageSearchValue := lang, selectedLanguage := some lang,
           dropdownHidden := true, translateBtnDisabled := false }

/-- The click listener of the document (lines 81-85) for a click whose target is neither the
search box nor the dropdown: the dropdown is hidden. -/
def documentClick (s : State) : State :=
  { s with dropdownHidden := true }

/-- The function `uploadPdf` (lines 161-169) up to `await fetch(/api/upload)`. -/
def uploadPdf (s : State) (file : File) : State :=
  { s with log := s.log ++ [Effect.postUpload file], pendingUploads := s.pendingUploads + 1 }

/-- The function `handleFile` (lines 147-159). -/
def handleFile (s : State) (file : File) : State :=
  if !includes file.type "pdf" then showError s "Please upload a PDF file"
  else uploadPdf { s with fileNameText := file.name, uploadStatusHidden := false } file

/-- The `catch` block of `uploadPdf` (lines 184-188) for an error with this message. -/
def uploadPdfCatch (s : State) (message : String) : State :=
  showError
    { s with uploadProgressHtml :=
        "<i class=\"fas fa-times-circle text-red-600 mr-2\"></i><span>Upload failed</span>" }
    ("Error uploading PDF: " ++ message)

/-- The function `uploadPdf` from the moment `fetch` settles (lines 171-188). -/
def uploadPdfResponse (s : State) : Response UploadData → State
  | Response.networkError message => uploadPdfCatch s message
  | Response.notOk (Except.error message) => uploadPdfCatch s message
  | Response.notOk (Except.ok errorData) =>
    uploadPdfCatch s (orElse errorData.detail "Upload failed")
  | Response.ok (Except.error message) => uploadPdfCatch s message
  | Response.ok (Except.ok data) =>
    showLanguageDropdown
      { s with fileId := some data.file_id, pdfData := some data,
               uploadProgressHtml :=
        "<i class=\"fas fa-check-circle text-green-600 mr-2\"></i><span>Upload complete</span>",
               translationSectionHidden := false }

/-- The function `fetchLanguages` (lines 136-145) from the moment its request settles: the
list of languages, or the message of the error thrown by `fetch` or `response.json()`. -/
def fetchLanguagesResponse (s : State) : Except String (List String) → State
  | Except.ok languages => { s with languages := languages }
  | Except.error _ =>
    showError s "Failed to fetch supported languages. Please refresh the page and try again."

/-- The string a template literal gives for an integer-valued number: its decimal numeral
when the magnitude is at most 2^53 (every such integer is a double and is printed in
full), and what the browser prints otherwise. -/
def numberToString (b : Browser) (r : Int) : String :=
  if r.natAbs ≤ 2 ^ 53 then toString r else b.largeNumberToString r

/-- The function `updateProgressBar` (lines 340-345), for a finite number. The two fields
hold what the script assigns to `style.width` and to `textContent`. -/
def updateProgressBar (b : Browser) (s : State) (percentage : ℚ) : State :=
  let roundedPercentage := mathRound percentage
  { s with progressBarWidth := numberToString b roundedPercentage ++ "%",
           progressPercentage := numberToString b roundedPercentage ++ "%" }

/-- The function `populatePageSelector` (lines 480-493). The emptied selector has no value;
once options are appended the browser selects the first one. -/
def populatePageSelector (s : State) : State :=
  match s.pdfData with
  | none => { s with pageOptions := [], pageSelectorValue := none }
  | some pdfData =>
    { s with pageOptions :=
               pdfData.pages.map (fun page => (page.page_number,
                                               "Page " ++ toString page.page_number)),
             pageSelectorValue := pdfData.pages.head?.map Page.page_number }

/-- The function `displaySelectedPage` (lines 495-520). The selector value is the number
`parseInt` reads from it, or nothing (`NaN`) when the selector has no option. -/
def displaySelectedPage (s : State) : State :=
  let selectedPage := s.pageSelectorValue
  match s.pdfData, s.translationData with
  | some pdfData, some translationData =>
    let originalPage := pdfData.pages.find? (fun page => some page.page_number == selectedPage)
    let translatedPage :=
      translationData.pages.find? (fun page => some page.page_number == selectedPage)
    let s1 :=
      match originalPage with
      | some page => { s with originalText := page.content }
      | none => { s with originalText := "No content available" }
    match translatedPage with
    | some page => { s1 with translatedText := page.content }
    | none => { s1 with translatedText := "No translation available" }
  | _, _ => s

/-- The function `fetchTranslation` (lines 459-465) up to `await fetch`. -/
def fetchTranslation (s : State) : State :=
  if !truthy s.fileId || !truthy s.selectedLanguage then s
  else
    { s with log := s.log ++ [Effect.getTranslation (s.fileId.getD "") (s.selectedLanguage.getD "")],
             pendingFetches := s.pendingFetches + 1 }

/-- The function `fetchTranslation` from the moment `fetch` settles (lines 467-477). -/
def fetchTranslationResponse (s : State) : Response TranslationData → State
  | Response.ok (Except.ok data) => populatePageSelector { s with translationData := some data }
  | _ => s

/-- The readyState of socket `k` becomes `r`. -/
def setReadyState (s : State) (k : Nat) (r : ReadyState) : State :=
  { s with sockets := s.sockets.modify (fun sock => { sock with readyState := r }) k }

/-- The invocation of `startTranslation` that created socket `k` moves to `pc`. -/
def setRun (s : State) (k : Nat) (pc : RunPc) : State :=
  { s with sockets := s.sockets.modify (fun sock => { sock with run := pc }) k }

/-- The readyState of socket `k`. -/
def readyStateOf (s : State) (k : Nat) : Option ReadyState :=
  s.sockets[k]?.map Socket.readyState

/-- Where the invocation that created socket `k` stands. -/
def runOf (s : State) (k : Nat) : Option RunPc :=
  s.sockets[k]?.map Socket.run

/-- The executor of the promise of `setupWebSocket` (lines 255-337): an open socket held by
`websocket` is closed, a new socket is created and stored, and its four handlers are set.
The new socket is the next in `sockets`; the invocation that called is suspended on it. -/
def setupWebSocket (s : State) : State :=
  let s1 :=
    match s.websocket with
    | some j =>
      if readyStateOf s j = some ReadyState.open then
        { setReadyState s j ReadyState.closing with log := s.log ++ [Effect.wsClose j] }
      else s
    | none => s
  let k := s1.sockets.length
  { s1 with sockets := s1.sockets ++ [{ readyState := ReadyState.connecting,
                                        run := RunPc.awaitSetup }],
            websocket := some k,
            log := s1.log ++ [Effect.wsCreate k (s1.fileId.getD "null")] }

/-- The function `startTranslation` (lines 347-367) up to `await setupWebSocket()`. -/
def startTranslation (s : State) : State :=
  if !truthy s.fileId || !truthy s.selectedLanguage then s
  else
    setupWebSocket
      { s with translateBtnDisabled := true,
               progressContainerHidden := false,
               translationCompleteHidden := true,
               progressStatus := "Initializing translation...",
               progressIconClass := "fas fa-spinner spinner text-indigo-600 mr-2",
               progressPercentage := "0%",
               progressBarWidth := "0%",
               progressDetails := "Connecting to translation service...",
               progressDetailsRed := false }

/-- The `catch` block of `startTranslation` (lines 374-382). -/
def startTranslationCatch (s : State) : State :=
  { s with progressStatus := "Connection failed",
           progressIconClass := "fas fa-times-circle text-red-600 mr-2",
           progressDetails := "Failed to establish connection to translation service.",
           progressDetailsRed := true,
           translateBtnDisabled := false }

/-- The handler `onopen` of socket `k` (lines 268-272). Resolving the promise resumes the
invocation suspended on it, which registers the 500 ms timer (line 370); resolving a settled
promise does nothing. -/
def onopen (s : State) (k : Nat) : State :=
  let s1 := { s with log := s.log ++ [Effect.opened k], websocketReady := true }
  if runOf s1 k = some RunPc.awaitSetup then
    { setRun s1 k RunPc.settling with timers := s1.timers ++ [Timer.settle k] }
  else s1

/-- The handler `onerror` of socket `k` (lines 326-331). Rejecting the promise makes the
invocation suspended on it run its `catch` block and return; rejecting a settled promise
does nothing. -/
def onerror (s : State) (k : Nat) : State :=
  let s1 :=
    showError { s with websocketReady := false }
      "Error connecting to translation service. Please try again."
  if runOf s1 k = some RunPc.awaitSetup then
    setRun (startTranslationCatch s1) k RunPc.finished
  else s1

/-- The handler `onclose` of a socket (lines 333-336). -/
def onclose (s : State) : State :=
  { s with websocketReady := false }

/-- The handler `onmessage` of a socket (lines 274-324). -/
def onmessage (b : Browser) (s : State) : WsMessage → State
  | WsMessage.connected =>
    { s with progressStatus := "Connected. Preparing translation..." }
  | WsMessage.translating progress message =>
    { updateProgressBar b s progress with
        progressStatus := "Translating...", progressDetails := message }
  | WsMessage.page_completed progress message =>
    { updateProgressBar b s progress with
        progressStatus := "Translating...", progressDetails := message }
  | WsMessage.completed export_url =>
    let s1 := { updateProgressBar b s 100 with
        progressStatus := "Translation completed!",
        progressIconClass := "fas fa-check-circle text-green-600 mr-2" }
    { s1 with timers := s1.timers ++ [Timer.wsCompleted export_url] }
  | WsMessage.error message =>
    { s with progressStatus := "Error",
             progressIconClass := "fas fa-times-circle text-red-600 mr-2",
             progressDetails := message,
             progressDetailsRed := true }
  | WsMessage.other _ => s

/-- The timer callback of the `completed` message (lines 303-313). -/
def completedTimeout (s : State) (export_url : String) : State :=
  fetchTranslation
    { s with progressContainerHidden := true,
             translationCompleteHidden := false,
             downloadHref := replace export_url "format=md" "format=pdf",
             downloadMdHref := export_url }

/-- The `catch` block of `translatePdf` (lines 439-456) for an error with this message. -/
def translatePdfCatch (s : State) (message : String) : State :=
  let s1 :=
    { s with progressStatus := "Translation failed",
             progressIconClass := "fas fa-times-circle text-red-600 mr-2",
             progressDetails := message,
             progressDetailsRed := true,
             translateBtnDisabled := false }
  if includes message "API key" then
    showError s1 ("Translation failed: OpenAI API key is invalid or not configured properly. "
      ++ "Please check your .env file and restart the server.")
  else
    showError s1 ("Translation failed: " ++ message)

/-- The function `translatePdf` (lines 385-407) up to `await fetch(/api/translate)`, called
by invocation `k` of `startTranslation` when its 500 ms timer fires. When the guard refuses,
`translatePdf` returns and so does the invocation. `send` throws on a connecting socket and
drops the message without an exception on a closing or closed one. -/
def translatePdf (b : Browser) (s : State) (k : Nat) : State :=
  if !truthy s.fileId || !truthy s.selectedLanguage || !s.websocketReady then
    setRun s k RunPc.finished
  else
    match s.websocket with
    | none => setRun (translatePdfCatch s b.nullErrorMessage) k RunPc.finished
    | some j =>
      if readyStateOf s j = some ReadyState.connecting then
        setRun (translatePdfCatch s b.sendErrorMessage) k RunPc.finished
      else
        setRun
          { s with log := s.log ++
              [Effect.wsSend j (s.fileId.getD "") (s.selectedLanguage.getD ""),
               Effect.postTranslate k (s.fileId.getD "") (s.selectedLanguage.getD "")] }
          k RunPc.awaitResponse

/-- The function `translatePdf` from the moment `fetch` settles (lines 409-457), up to the
registration of the timer of line 424. -/
def translatePdfResponse (b : Browser) (s : State) : Response TranslationData → State
  | Response.networkError message => translatePdfCatch s message
  | Response.notOk (Except.error message) => translatePdfCatch s message
  | Response.notOk (Except.ok errorData) =>
    translatePdfCatch s (orElse errorData.detail "Translation failed")
  | Response.ok (Except.error message) => translatePdfCatch s message
  | Response.ok (Except.ok data) =>
    let s1 := { s with translationData := some data }
    if s1.progressContainerHidden = false then
      let s2 := { updateProgressBar b s1 100 with
          progressStatus := "Translation completed!",
          progressIconClass := "fas fa-check-circle text-green-600 mr-2" }
      { s2 with timers := s2.timers ++ [Timer.httpCompleted] }
    else s1

/-- The timer callback of the successful translate response (lines 424-436). It reads the
variable `translationData` when it runs; on `null` the read of `export_url` throws and the
callback ends there. -/
def translateTimeout (s : State) : State :=
  let s1 := { s with progressContainerHidden := true, translationCompleteHidden := false }
  match s1.translationData with
  | none => s1
  | some translationData =>
    let s2 :=
      if truthy translationData.export_url then
        { s1 with downloadHref :=
                    replace (translationData.export_url.getD "") "format=md" "format=pdf",
                  downloadMdHref := translationData.export_url.getD "" }
      else s1
    populatePageSelector s2

/-! ## Events -/

/-- What the browser delivers to the script: one listener, handler, timer callback or
settled request at a time. -/
inductive Event where
  /-- A file arrives from the file input or from a drop (lines 49-53 and 65-72). -/
  | fileChosen (file : File)
  /-- The request of an `uploadPdf` in flight settles. -/
  | uploadSettled (r : Response UploadData)
  /-- The request of `fetchLanguages` settles. -/
  | languagesSettled (r : Except String (List String))
  /-- The user edits the search box; it now holds `value` (line 75). -/
  | searchInput (value : String)
  /-- The search box gets the focus (lines 76-78). -/
  | searchFocus
  /-- A click that is neither in the search box nor on the dropdown (lines 81-85). -/
  | clickOutside
  /-- A click on the entry `lang` of the visible dropdown. -/
  | clickLanguage (lang : String)
  /-- A click on the translate button (line 88); it then reaches the listener of the
  document. -/
  | clickTranslate
  /-- The connection of socket `k` is established. -/
  | wsOpen (k : Nat)
  /-- A message arrives on socket `k`; the browser fires the event on an open socket
  only. -/
  | wsMessage (k : Nat) (m : WsMessage)
  /-- The connection of socket `k` fails: the socket is closed, `error` is fired and then
  `close`. -/
  | wsFail (k : Nat)
  /-- The connection of socket `k` is closed without failure: `close` is fired. -/
  | wsClosed (k : Nat)
  /-- A pending timer runs its callback. -/
  | timer (t : Timer)
  /-- The translate request of invocation `k` settles. -/
  | translateSettled (k : Nat) (r : Response TranslationData)
  /-- The request of a `fetchTranslation` in flight settles. -/
  | fetchSettled (r : Response TranslationData)
  /-- A click on the view-translation button of the visible completion panel (lines 91-95);
  it then reaches the listener of the document. -/
  | clickView
  /-- A click on the back button of the visible results section (lines 98-101); it then
  reaches the listener of the document. -/
  | clickBack
  /-- The user selects the option with value `n` in the page selector (line 104). -/
  | pageChange (n : Nat)

/-- One event is handled. An event the browser cannot deliver in the state (a click on a
disabled button, a message on a socket that is not open, an event of a socket that is
closed, a timer or response nobody waits for) leaves the state as it is. -/
def step (b : Browser) (s : State) : Event → State
  | Event.fileChosen file => handleFile s file
  | Event.uploadSettled r =>
    if s.pendingUploads = 0 then s
    else uploadPdfResponse { s with pendingUploads := s.pendingUploads - 1 } r
  | Event.languagesSettled r =>
    if s.languagesPending then fetchLanguagesResponse { s with languagesPending := false } r
    else s
  | Event.searchInput value => filterLanguages b { s with languageSearchValue := value }
  | Event.searchFocus => showLanguageDropdown s
  | Event.clickOutside => documentClick s
  | Event.clickLanguage lang =>
    if !s.dropdownHidden && s.dropdownItems.contains (DropdownItem.lang lang) then
      selectLanguage s lang
    else s
  | Event.clickTranslate =>
    if s.translateBtnDisabled then s else documentClick (startTranslation s)
  | Event.wsOpen k =>
    if readyStateOf s k = some ReadyState.connecting then
      onopen (setReadyState s k ReadyState.open) k
    else s
  | Event.wsMessage k m =>
    if readyStateOf s k = some ReadyState.open then onmessage b s m else s
  | Event.wsFail k =>
    if readyStateOf s k = none ∨ readyStateOf s k = some ReadyState.closed then s
    else onclose (onerror (setReadyState s k ReadyState.closed) k)
  | Event.wsClosed k =>
    if readyStateOf s k = none ∨ readyStateOf s k = some ReadyState.closed then s
    else onclose (setReadyState s k ReadyState.closed)
  | Event.timer t =>
    if t ∈ s.timers then
      let s1 := { s with timers := s.timers.erase t }
      match t with
      | Timer.settle k => if runOf s1 k = some RunPc.settling then translatePdf b s1 k else s
      | Timer.wsCompleted export_url => completedTimeout s1 export_url
      | Timer.httpCompleted => translateTimeout s1
    else s
  | Event.translateSettled k r =>
    if runOf s k = some RunPc.awaitResponse then
      translatePdfResponse b (setRun s k RunPc.finished) r
    else s
  | Event.fetchSettled r =>
    if s.pendingFetches = 0 then s
    else fetchTranslationResponse { s with pendingFetches := s.pendingFetches - 1 } r
  | Event.clickView =>
    if s.translationCompleteHidden then s
    else documentClick (displaySelectedPage { s with translationCompleteHidden := true,
                                                     resultsSectionHidden := false })
  | Event.clickBack =>
    if s.resultsSectionHidden then s
    else documentClick { s with resultsSectionHidden := true,
                                translationCompleteHidden := false }
  | Event.pageChange n =>
    if (s.pageOptions.map Prod.fst).contains n then
      displaySelectedPage { s with pageSelectorValue := some n }
    else s

/-- The events of a list are handled one after the other. -/
def run (b : Browser) (s : State) (es : List Event) : State := es.foldl (step b) s

/-- The effects the script produces while it handles event `e` in state `s`. -/
def issued (b : Browser) (s : State) (e : Event) : List Effect :=
  (step b s e).log.drop s.log.length

/-! ## Predicates on states and traces -/

/-- A list of effects without a translate request. -/
def NoRequest (l : List Effect) : Prop := ∀ k f g, Effect.postTranslate k f g ∉ l

/-- What holds of every state the page can reach: an invocation that waits at line 370 has
seen its socket open, and an invocation whose translate request is in the log has seen its
socket open and is past line 370. -/
def Inv (s : State) : Prop :=
  (∀ k, runOf s k = some RunPc.settling → Effect.opened k ∈ s.log) ∧
  (∀ k f g, Effect.postTranslate k f g ∈ s.log →
    Effect.opened k ∈ s.log ∧
      (runOf s k = some RunPc.awaitResponse ∨ runOf s k = some RunPc.finished))

/-! ## Concrete sessions, for evaluation -/

/-- A document of three pages as the upload returns it. -/
def sampleDocument : UploadData :=
  { file_id := "f1", pages := [⟨1, "one"⟩, ⟨2, "two"⟩, ⟨3, "three"⟩] }

/-- The languages arrive, a PDF is uploaded, Spanish is picked and the translate button is
clicked. -/
def sessionClicked : List Event :=
  [Event.languagesSettled (Except.ok ["French", "Spanish", "German"]),
   Event.fileChosen ⟨"a.pdf", "application/pdf"⟩,
   Event.uploadSettled (Response.ok (Except.ok sampleDocument)),
   Event.clickLanguage "Spanish",
   Event.clickTranslate]

/-- The session `sessionClicked`, then the socket of the invocation opens. -/
def sessionOpened : List Event :=
  sessionClicked ++ [Event.wsOpen 0]

/-- The session `sessionOpened`, then the 500 ms timer: the translation is under way. -/
def sessionTranslating : List Event :=
  sessionOpened ++ [Event.timer (Timer.settle 0)]

/-- The session `sessionOpened`, then the socket closes during the 500 ms wait. -/
def sessionDropped : List Event :=
  sessionOpened ++ [Event.wsClosed 0]

/-! ## The two ways a translation completes -/

/-- What the user sees of a completed translation: whether the progress container is
hidden, whether the completion panel is hidden, the link of the PDF download button and the
link of the Markdown download button. -/
def completionView (s : State) : Bool × Bool × String × String :=
  (s.progressContainerHidden, s.translationCompleteHidden, s.downloadHref, s.downloadMdHref)

/-- The translation of invocation `k` is under way: its socket is open, its translate
request is in flight and the progress container is visible. -/
def Translating (s : State) (k : Nat) : Prop :=
  readyStateOf s k = some ReadyState.open ∧ runOf s k = some RunPc.awaitResponse ∧
    s.progressContainerHidden = false

instance (s : State) (k : Nat) : Decidable (Translating s k) := by
  unfold Translating; infer_instance

/-- Completion through the channel alone: the `completed` message arrives on socket `k`
with `export_url`, then its timer callback runs. -/
def completeViaChannel (b : Browser) (s : State) (k : Nat) (export_url : String) : State :=
  step b (step b s (Event.wsMessage k (WsMessage.completed export_url)))
    (Event.timer (Timer.wsCompleted export_url))

/-- Completion through the translate response alone: the request of invocation `k` gets a
2xx response carrying `pages` and `export_url`, then its timer callback runs. -/
def completeViaHttp (b : Browser) (s : State) (k : Nat) (pages : List Page)
    (export_url : String) : State :=
  step b (step b s (Event.translateSettled k
      (Response.ok (Except.ok { pages := pages, export_url := some export_url }))))
    (Event.timer Timer.httpCompleted)

/-- A first translation has completed through its response, with its download links set;
French is picked and a second translation is under way on socket 1. -/
def sessionSecondTranslation : List Event :=
  sessionTranslating ++
  [Event.translateSettled 0 (Response.ok (Except.ok
      { pages := [⟨1, "uno"⟩], export_url := some "/api/export/f1?format=md" })),
   Event.timer Timer.httpCompleted,
   Event.searchFocus,
   Event.clickLanguage "French",
   Event.clickTranslate,
   Event.wsOpen 1,
   Event.timer (Timer.settle 1)]

/-- The translation of `sessionTranslating` completes through its response, the user opens
the results view, and only then the `completed` message arrives on the channel. -/
def sessionResponseFirst : List Event :=
  sessionTranslating ++
  [Event.translateSettled 0 (Response.ok (Except.ok
      { pages := [⟨1, "uno"⟩], export_url := some "/api/export/f1?format=md" })),
   Event.timer Timer.httpCompleted,
   Event.clickView,
   Event.wsMessage 0 (WsMessage.completed "/api/export/f1?format=md")]

/-- The `completed` message arrives in `sessionTranslating`, and the translate response
arrives before the timer of the message has run. -/
def sessionChannelFirst : List Event :=
  sessionTranslating ++
  [Event.wsMessage 0 (WsMessage.completed "/api/export/f1?format=md"),
   Event.translateSettled 0 (Response.ok (Except.ok
      { pages := [⟨1, "uno"⟩], export_url := some "/api/export/f1?format=md" }))]

/-- A first translation fails with a non-2xx response, which enables the button again; the
user clicks it, so `setupWebSocket` closes socket 0 and creates socket 1. -/
def sessionRestarted : List Event :=
  sessionTranslating ++
  [Event.translateSettled 0 (Response.notOk (Except.ok { detail := some "boom" })),
   Event.clickTranslate]

/-- The translate button is clicked, French is picked while socket 0 is still connecting,
the button is clicked again, and both sockets open. -/
def sessionTwoSockets : List Event :=
  [Event.languagesSettled (Except.ok ["French", "Spanish", "German"]),
   Event.fileChosen ⟨"a.pdf", "application/pdf"⟩,
   Event.uploadSettled (Response.ok (Except.ok sampleDocument)),
   Event.clickLanguage "Spanish",
   Event.clickTranslate,
   Event.searchFocus,
   Event.clickLanguage "French",
   Event.clickTranslate,
   Event.wsOpen 0,
   Event.wsOpen 1]

/-- The outcome of an upload that failed with the message `message`: nothing is stored, the
translation section is as it was, the inline status reads `Upload failed`, and one toast is
added with the message after the words `Error uploading PDF: `. -/
def UploadFailedWith (s t : State) (message : String) : Prop :=
  t.fileId = s.fileId ∧ t.pdfData = s.pdfData ∧
  t.translationSectionHidden = s.translationSectionHidden ∧
  t.uploadProgressHtml =
    "<i class=\"fas fa-times-circle text-red-600 mr-2\"></i><span>Upload failed</span>" ∧
  t.notifications = s.notifications ++ ["Error uploading PDF: " ++ message]

/-- The translation of `sessionSecondTranslation` completes through a response whose
export URL is the empty string. -/
def sessionEmptyUrl : List Event :=
  sessionSecondTranslation ++
  [Event.translateSettled 1 (Response.ok (Except.ok { pages := [], export_url := some "" })),
   Event.timer Timer.httpCompleted]

/-- The languages the dropdown shows as clickable entries, in the order shown. -/
def shownLanguages (s : State) : List String :=
  s.dropdownItems.filterMap fun item =>
    match item with
    | DropdownItem.lang name => some name
    | DropdownItem.noResult => none

/-- The loaded page with a translation stored whose export URL is `u`. -/
def pageWithExportUrl (u : String) : State :=
  { init blankPage with translationData := some { pages := [], export_url := some u } }

/-- The loaded page with the catalog of the specification and `query` in the search box. -/
def catalogPage (query : String) : State :=
  { init blankPage with
    languages := ["French", "Spanish", "German"],
    languageSearchValue := query }

/-- The loaded page, its catalog still empty, with `query` in the search box. -/
def emptyCatalogPage (query : String) : State :=
  { init blankPage with languageSearchValue := query }

/-- The viewer with the three pages of `sampleDocument`, a translation of page 2 only, and
page `n` selected. -/
def viewerPage (n : Nat) : State :=
  { init blankPage with
    pdfData := some sampleDocument,
    translationData := some { pages := [⟨2, "dos"⟩], export_url := none },
    pageSelectorValue := some n }

/-- The toast of `translatePdf` for a failure whose message mentions the API key (line 452). -/
def configurationNotice : String :=
  "Translation failed: OpenAI API key is invalid or not configured properly. "
    ++ "Please check your .env file and restart the server."

/-- The translation of `sessionOpened` is restarted during the 500 ms wait: French is
picked and the button clicked, so that `websocket` holds the connecting socket 1 while the
flag set by socket 0 is still true. -/
def sessionRestartedInWait : List Event :=
  sessionOpened ++
  [Event.searchFocus,
   Event.clickLanguage "French",
   Event.clickTranslate]

/-- The session `sessionRestartedInWait`, then the timer of the first invocation. -/
def sessionSendThrows : List Event :=
  sessionRestartedInWait ++ [Event.timer (Timer.settle 0)]

/-- The words of the claim: a declared media type is a PDF media type when it is
`application/pdf`, the type registered for PDF, alone or followed by parameters. -/
def isPdfMediaType (mediaType : String) : Bool :=
  mediaType == "application/pdf" || "application/pdf;".data.isPrefixOf mediaType.data

/-! ## Theorems -/

/-! ### Frame lemmas: what the callbacks leave alone -/

@[simp] theorem showError_log (s : State) (m : String) : (showError s m).log = s.log := rfl
@[simp] theorem showLanguageDropdown_log (s : State) : (showLanguageDropdown s).log = s.log := by
  unfold showLanguageDropdown; split <;> rfl
@[simp] theorem filterLanguages_log (b : Browser) (s : State) : (filterLanguages b s).log = s.log := by
  unfold filterLanguages; simp only []; split
  · simp
  · split <;> rfl
@[simp] theorem populatePageSelector_log (s : State) : (populatePageSelector s).log = s.log := by
  unfold populatePageSelector; split <;> rfl
@[simp] theorem displaySelectedPage_log (s : State) : (displaySelectedPage s).log = s.log := by
  unfold displaySelectedPage; simp only []; split
  · split <;> split <;> rfl
  · rfl
@[simp] theorem updateProgressBar_log (b : Browser) (s : State) (p : ℚ) :
    (updateProgressBar b s p).log = s.log := rfl
@[simp] theorem uploadPdfCatch_log (s : State) (m : String) : (uploadPdfCatch s m).log = s.log := rfl
@[simp] theorem translatePdfCatch_log (s : State) (m : String) : (translatePdfCatch s m).log = s.log := by
  unfold translatePdfCatch; simp only []; split <;> rfl
@[simp] theorem setRun_log (s : State) (k : Nat) (pc : RunPc) : (setRun s k pc).log = s.log := rfl
@[simp] theorem setReadyState_log (s : State) (k : Nat) (r : ReadyState) : (setReadyState s k r).log = s.log := rfl
@[simp] theorem onclose_log (s : State) : (onclose s).log = s.log := rfl
@[simp] theorem onerror_log (s : State) (k : Nat) : (onerror s k).log = s.log := by
  unfold onerror; simp only []; split <;> rfl
@[simp] theorem onmessage_log (b : Browser) (s : State) (m : WsMessage) :
    (onmessage b s m).log = s.log := by
  cases m <;> rfl
@[simp] theorem startTranslationCatch_log (s : State) : (startTranslationCatch s).log = s.log := rfl
@[simp] theorem translatePdfResponse_log (b : Browser) (s : State)
    (r : Response TranslationData) : (translatePdfResponse b s r).log = s.log := by
  unfold translatePdfResponse; split <;> simp
  split <;> rfl
@[simp] theorem fetchTranslationResponse_log (s : State) (r : Response TranslationData) :
    (fetchTranslationResponse s r).log = s.log := by
  unfold fetchTranslationResponse; split <;> simp
@[simp] theorem uploadPdfResponse_log (s : State) (r : Response UploadData) :
    (uploadPdfResponse s r).log = s.log := by
  unfold uploadPdfResponse; split <;> simp
@[simp] theorem fetchLanguagesResponse_log (s : State) (r : Except String (List String)) :
    (fetchLanguagesResponse s r).log = s.log := by
  unfold fetchLanguagesResponse; split <;> simp

@[simp] theorem selectLanguage_log (s : State) (l : String) : (selectLanguage s l).log = s.log := rfl

@[simp] theorem documentClick_log (s : State) : (documentClick s).log = s.log := rfl

@[simp] theorem documentClick_sockets (s : State) : (documentClick s).sockets = s.sockets := rfl

theorem noRequest_nil : NoRequest [] := by simp [NoRequest]

theorem handleFile_log (s : State) (file : File) :
    ∃ l, (handleFile s file).log = s.log ++ l ∧ NoRequest l := by
  unfold handleFile; split
  · exact ⟨[], by simp [showError], by simp [NoRequest]⟩
  · exact ⟨[Effect.postUpload file], by simp [uploadPdf], by simp [NoRequest]⟩

theorem setupWebSocket_log (s : State) :
    ∃ l, (setupWebSocket s).log = s.log ++ l ∧ NoRequest l := by
  unfold setupWebSocket
  cases hw : s.websocket with
  | none => exact ⟨_, rfl, by simp [NoRequest]⟩
  | some j =>
    simp only []
    split
    · exact ⟨[Effect.wsClose j] ++ [_], List.append_assoc _ _ _, by simp [NoRequest]⟩
    · exact ⟨_, rfl, by simp [NoRequest]⟩

theorem startTranslation_log (s : State) :
    ∃ l, (startTranslation s).log = s.log ++ l ∧ NoRequest l := by
  unfold startTranslation; split
  · exact ⟨[], by simp, by simp [NoRequest]⟩
  · exact setupWebSocket_log _

theorem onopen_log (s : State) (k : Nat) : (onopen s k).log = s.log ++ [Effect.opened k] := by
  unfold onopen; simp only []; split <;> rfl

theorem completedTimeout_log (s : State) (u : String) :
    ∃ l, (completedTimeout s u).log = s.log ++ l ∧ NoRequest l := by
  unfold completedTimeout fetchTranslation; split
  · exact ⟨[], by simp, by simp [NoRequest]⟩
  · exact ⟨[_], rfl, by simp [NoRequest]⟩

@[simp] theorem translateTimeout_log (s : State) : (translateTimeout s).log = s.log := by
  unfold translateTimeout; simp only []; split
  · rfl
  · simp only [populatePageSelector_log]; split <;> rfl

theorem translatePdf_log (b : Browser) (s : State) (k : Nat) :
    (translatePdf b s k).log = s.log ∨
      (s.websocketReady = true ∧ ∃ j, s.websocket = some j ∧
        (translatePdf b s k).log = s.log ++
          [Effect.wsSend j (s.fileId.getD "") (s.selectedLanguage.getD ""),
           Effect.postTranslate k (s.fileId.getD "") (s.selectedLanguage.getD "")]) := by
  unfold translatePdf
  split
  · left; rfl
  · rename_i hg
    split
    · left; simp
    · rename_i j hj
      split
      · left; simp
      · right
        have hg2 : (truthy s.fileId = true ∧ truthy s.selectedLanguage = true) ∧
            s.websocketReady = true := by simpa using hg
        exact ⟨hg2.2, j, hj, rfl⟩

/-- Every event but the firing of a settle timer adds effects without a translate request. -/
theorem step_log_noRequest (b : Browser) (s : State) (e : Event)
    (he : ∀ k, e ≠ Event.timer (Timer.settle k)) :
    ∃ l, (step b s e).log = s.log ++ l ∧ NoRequest l := by
  cases e with
  | fileChosen file => exact handleFile_log s file
  | clickTranslate =>
    simp only [step]; split
    · exact ⟨[], by simp, noRequest_nil⟩
    · exact startTranslation_log s
  | wsOpen k =>
    simp only [step]; split
    · exact ⟨[Effect.opened k], by simp [onopen_log], by simp [NoRequest]⟩
    · exact ⟨[], by simp, noRequest_nil⟩
  | timer t =>
    cases t with
    | settle k => exact absurd rfl (he k)
    | wsCompleted u =>
      simp only [step]; split
      · exact completedTimeout_log _ u
      · exact ⟨[], by simp, noRequest_nil⟩
    | httpCompleted =>
      simp only [step]; split
      · exact ⟨[], by simp, noRequest_nil⟩
      · exact ⟨[], by simp, noRequest_nil⟩
  | _ =>
    refine ⟨[], ?_, noRequest_nil⟩
    simp only [step]
    first
      | (split <;> simp)
      | simp

@[simp] theorem showError_sockets (s : State) (m : String) : (showError s m).sockets = s.sockets := rfl
@[simp] theorem showLanguageDropdown_sockets (s : State) :
    (showLanguageDropdown s).sockets = s.sockets := by
  unfold showLanguageDropdown; split <;> rfl
@[simp] theorem filterLanguages_sockets (b : Browser) (s : State) :
    (filterLanguages b s).sockets = s.sockets := by
  unfold filterLanguages; simp only []; split
  · simp
  · split <;> rfl
@[simp] theorem selectLanguage_sockets (s : State) (l : String) :
    (selectLanguage s l).sockets = s.sockets := rfl
@[simp] theorem handleFile_sockets (s : State) (f : File) : (handleFile s f).sockets = s.sockets := by
  unfold handleFile; split <;> rfl
@[simp] theorem populatePageSelector_sockets (s : State) :
    (populatePageSelector s).sockets = s.sockets := by
  unfold populatePageSelector; split <;> rfl
@[simp] theorem displaySelectedPage_sockets (s : State) :
    (displaySelectedPage s).sockets = s.sockets := by
  unfold displaySelectedPage; simp only []; split
  · split <;> split <;> rfl
  · rfl
@[simp] theorem updateProgressBar_sockets (b : Browser) (s : State) (p : ℚ) :
    (updateProgressBar b s p).sockets = s.sockets := rfl
@[simp] theorem translatePdfCatch_sockets (s : State) (m : String) :
    (translatePdfCatch s m).sockets = s.sockets := by
  unfold translatePdfCatch; simp only []; split <;> rfl
@[simp] theorem onclose_sockets (s : State) : (onclose s).sockets = s.sockets := rfl
@[simp] theorem onmessage_sockets (b : Browser) (s : State) (m : WsMessage) :
    (onmessage b s m).sockets = s.sockets := by
  cases m <;> rfl
@[simp] theorem translatePdfResponse_sockets (b : Browser) (s : State)
    (r : Response TranslationData) : (translatePdfResponse b s r).sockets = s.sockets := by
  unfold translatePdfResponse; split <;> simp
  split <;> rfl
@[simp] theorem fetchTranslationResponse_sockets (s : State) (r : Response TranslationData) :
    (fetchTranslationResponse s r).sockets = s.sockets := by
  unfold fetchTranslationResponse; split <;> simp
@[simp] theorem uploadPdfResponse_sockets (s : State) (r : Response UploadData) :
    (uploadPdfResponse s r).sockets = s.sockets := by
  unfold uploadPdfResponse; split <;> first | rfl | simp
@[simp] theorem fetchLanguagesResponse_sockets (s : State) (r : Except String (List String)) :
    (fetchLanguagesResponse s r).sockets = s.sockets := by
  unfold fetchLanguagesResponse; split <;> simp
@[simp] theorem completedTimeout_sockets (s : State) (u : String) :
    (completedTimeout s u).sockets = s.sockets := by
  unfold completedTimeout fetchTranslation; split <;> rfl
@[simp] theorem translateTimeout_sockets (s : State) : (translateTimeout s).sockets = s.sockets := by
  unfold translateTimeout; simp only []; split
  · rfl
  · simp only [populatePageSelector_sockets]; split <;> rfl

theorem runOf_congr {s t : State} (h : t.sockets = s.sockets) (k : Nat) : runOf t k = runOf s k := by
  simp [runOf, h]

theorem runOf_setReadyState (s : State) (j : Nat) (r : ReadyState) (k : Nat) :
    runOf (setReadyState s j r) k = runOf s k := by
  simp only [runOf, setReadyState, List.getElem?_modify]
  cases s.sockets[k]? with
  | none => rfl
  | some sock => by_cases h : j = k <;> simp [h]

theorem runOf_setRun (s : State) (j : Nat) (pc : RunPc) (k : Nat) :
    runOf (setRun s j pc) k = if j = k then (runOf s k).map (fun _ => pc) else runOf s k := by
  simp only [runOf, setRun, List.getElem?_modify]
  cases s.sockets[k]? with
  | none => by_cases h : j = k <;> simp [h]
  | some sock => by_cases h : j = k <;> simp [h]

theorem runOf_setupWebSocket (s : State) (k : Nat) :
    runOf (setupWebSocket s) k = runOf s k ∨
      (runOf s k = none ∧ runOf (setupWebSocket s) k = some RunPc.awaitSetup) := by
  have key : ∀ t : State,
      (t.sockets ++ [(⟨ReadyState.connecting, RunPc.awaitSetup⟩ : Socket)])[k]?.map Socket.run
        = runOf t k ∨
      (runOf t k = none ∧
        (t.sockets ++ [(⟨ReadyState.connecting, RunPc.awaitSetup⟩ : Socket)])[k]?.map Socket.run
          = some RunPc.awaitSetup) := by
    intro t
    rcases Nat.lt_trichotomy k t.sockets.length with h | h | h
    · left; simp [runOf, List.getElem?_append_left h]
    · right; subst h; simp [runOf]
    · left
      have h1 : t.sockets.length ≤ k := Nat.le_of_lt h
      simp [runOf, List.getElem?_append_right h1, List.getElem?_eq_none h1]
      omega
  unfold setupWebSocket
  cases hw : s.websocket with
  | none => exact key s
  | some j =>
    simp only []
    split
    · have := key (setReadyState s j ReadyState.closing)
      rw [runOf_setReadyState] at this
      exact this
    · exact key s

theorem runOf_startTranslation (s : State) (k : Nat) :
    runOf (startTranslation s) k = runOf s k ∨
      (runOf s k = none ∧ runOf (startTranslation s) k = some RunPc.awaitSetup) := by
  unfold startTranslation
  split
  · left; rfl
  · exact runOf_setupWebSocket _ k

theorem runOf_onopen (s : State) (j k : Nat) :
    runOf (onopen s j) k = runOf s k ∨
      (runOf s k = some RunPc.awaitSetup ∧ runOf (onopen s j) k = some RunPc.settling ∧ j = k) := by
  unfold onopen
  simp only []
  split
  · rename_i h
    by_cases hjk : j = k
    · subst hjk
      right
      refine ⟨h, ?_, rfl⟩
      have := runOf_setRun { s with log := s.log ++ [Effect.opened j], websocketReady := true } j
        RunPc.settling j
      rw [if_pos rfl] at this
      have h2 : runOf { s with log := s.log ++ [Effect.opened j], websocketReady := true } j
          = some RunPc.awaitSetup := h
      rw [h2] at this
      exact this
    · left
      have := runOf_setRun { s with log := s.log ++ [Effect.opened j], websocketReady := true } j
        RunPc.settling k
      rw [if_neg hjk] at this
      exact this
  · left; rfl

theorem runOf_onerror (s : State) (j k : Nat) :
    runOf (onerror s j) k = runOf s k ∨
      (runOf s k = some RunPc.awaitSetup ∧ runOf (onerror s j) k = some RunPc.finished) := by
  unfold onerror
  simp only []
  split
  · rename_i h
    by_cases hjk : j = k
    · subst hjk
      right
      refine ⟨h, ?_⟩
      rw [runOf_setRun, if_pos rfl]
      have h2 : runOf (startTranslationCatch (showError { s with websocketReady := false }
          "Error connecting to translation service. Please try again.")) j
          = some RunPc.awaitSetup := h
      rw [h2]; rfl
    · left
      rw [runOf_setRun, if_neg hjk]; rfl
  · left; rfl

theorem runOf_translatePdf (b : Browser) (s : State) (j k : Nat)
    (h : runOf s j = some RunPc.settling) :
    (j ≠ k ∧ runOf (translatePdf b s j) k = runOf s k) ∨
    (j = k ∧ runOf (translatePdf b s j) k = some RunPc.finished ∧ (translatePdf b s j).log = s.log) ∨
    (j = k ∧ runOf (translatePdf b s j) k = some RunPc.awaitResponse) := by
  by_cases hjk : j = k
  · subst hjk
    right
    unfold translatePdf
    split
    · left; refine ⟨rfl, ?_, rfl⟩
      rw [runOf_setRun, if_pos rfl, h]; rfl
    · split
      · left; refine ⟨rfl, ?_, by simp⟩
        rw [runOf_setRun, if_pos rfl, runOf_congr (translatePdfCatch_sockets _ _), h]; rfl
      · split
        · left; refine ⟨rfl, ?_, by simp⟩
          rw [runOf_setRun, if_pos rfl, runOf_congr (translatePdfCatch_sockets _ _), h]; rfl
        · right; refine ⟨rfl, ?_⟩
          rw [runOf_setRun, if_pos rfl]
          show Option.map (fun _ => RunPc.awaitResponse) (runOf s j) = _
          rw [h]; rfl
  · left
    refine ⟨hjk, ?_⟩
    unfold translatePdf
    split
    · rw [runOf_setRun, if_neg hjk]
    · split
      · rw [runOf_setRun, if_neg hjk, runOf_congr (translatePdfCatch_sockets _ _)]
      · split
        · rw [runOf_setRun, if_neg hjk, runOf_congr (translatePdfCatch_sockets _ _)]
        · rw [runOf_setRun, if_neg hjk]; rfl

/-- The log only grows. -/
theorem step_log_grows (b : Browser) (s : State) (e : Event) :
    ∃ l, (step b s e).log = s.log ++ l := by
  by_cases he : ∀ k, e ≠ Event.timer (Timer.settle k)
  · obtain ⟨l, hl, _⟩ := step_log_noRequest b s e he
    exact ⟨l, hl⟩
  · have he2 : ∃ k, e = Event.timer (Timer.settle k) := by
      by_contra hc
      exact he (fun k hk => hc ⟨k, hk⟩)
    obtain ⟨k, rfl⟩ := he2
    simp only [step]
    split
    · split
      · rcases translatePdf_log b { s with timers := s.timers.erase (Timer.settle k) } k with h | h
        · exact ⟨[], by simpa using h⟩
        · obtain ⟨_, j, _, h2⟩ := h
          exact ⟨_, h2⟩
      · exact ⟨[], by simp⟩
    · exact ⟨[], by simp⟩

theorem step_log (b : Browser) (s : State) (e : Event) :
    (step b s e).log = s.log ++ issued b s e := by
  obtain ⟨l, hl⟩ := step_log_grows b s e
  simp [issued, hl]

/-- A translate request is only issued by the timer callback of line 370, for an invocation
that waits there, with the readiness flag set, and right after the start message. -/
theorem step_request (b : Browser) (s : State) (e : Event) (k : Nat) (f g : String)
    (h : Effect.postTranslate k f g ∈ issued b s e) :
    e = Event.timer (Timer.settle k) ∧ runOf s k = some RunPc.settling ∧
      Timer.settle k ∈ s.timers ∧ s.websocketReady = true ∧
      runOf (step b s e) k = some RunPc.awaitResponse ∧
      ∃ j, s.websocket = some j ∧
        issued b s e = [Effect.wsSend j f g, Effect.postTranslate k f g] := by
  by_cases he : ∀ k, e ≠ Event.timer (Timer.settle k)
  · obtain ⟨l, hl, hn⟩ := step_log_noRequest b s e he
    have : issued b s e = l := by simp [issued, hl]
    rw [this] at h
    exact absurd h (hn k f g)
  · have he2 : ∃ k, e = Event.timer (Timer.settle k) := by
      by_contra hc
      exact he (fun k hk => hc ⟨k, hk⟩)
    obtain ⟨k', rfl⟩ := he2
    by_cases hm : Timer.settle k' ∈ s.timers
    · by_cases hr : runOf s k' = some RunPc.settling
      · have hstep : step b s (Event.timer (Timer.settle k')) =
            translatePdf b { s with timers := s.timers.erase (Timer.settle k') } k' := by
          simp only [step, if_pos hm]
          exact if_pos hr
        rcases translatePdf_log b { s with timers := s.timers.erase (Timer.settle k') } k'
          with h1 | ⟨hready, j, hw, h1⟩
        · have : issued b s (Event.timer (Timer.settle k')) = [] := by
            simp only [issued, hstep, h1]; simp
          rw [this] at h; simp at h
        · have hi : issued b s (Event.timer (Timer.settle k')) =
              [Effect.wsSend j (s.fileId.getD "") (s.selectedLanguage.getD ""),
               Effect.postTranslate k' (s.fileId.getD "") (s.selectedLanguage.getD "")] := by
            simp only [issued, hstep, h1]; simp
          rw [hi] at h
          simp at h
          obtain ⟨rfl, rfl, rfl⟩ := h
          refine ⟨rfl, hr, hm, hready, ?_, j, hw, hi⟩
          rw [hstep]
          rcases runOf_translatePdf b { s with timers := s.timers.erase (Timer.settle k) } k k hr
            with h2 | h2 | h2
          · exact absurd rfl h2.1
          · have : (translatePdf b { s with timers := s.timers.erase (Timer.settle k) } k).log
                = s.log := h2.2.2
            rw [this] at h1
            simp at h1
          · exact h2.2
      · have hstep : step b s (Event.timer (Timer.settle k')) = s := by
          simp only [step, if_pos hm]
          exact if_neg hr
        simp [issued, hstep] at h
    · have hstep : step b s (Event.timer (Timer.settle k')) = s := by
        simp only [step, if_neg hm]
      simp [issued, hstep] at h

/-- How one event moves the invocation of socket k. -/
theorem step_runOf (b : Browser) (s : State) (e : Event) (k : Nat) :
    runOf (step b s e) k = runOf s k ∨
    (runOf s k = none ∧ runOf (step b s e) k = some RunPc.awaitSetup) ∨
    (runOf s k = some RunPc.awaitSetup ∧ runOf (step b s e) k = some RunPc.settling ∧
      Effect.opened k ∈ (step b s e).log) ∨
    (runOf s k = some RunPc.awaitSetup ∧ runOf (step b s e) k = some RunPc.finished) ∨
    (runOf s k = some RunPc.settling ∧ runOf (step b s e) k = some RunPc.finished ∧
      (step b s e).log = s.log) ∨
    (runOf s k = some RunPc.settling ∧ runOf (step b s e) k = some RunPc.awaitResponse) ∨
    (runOf s k = some RunPc.awaitResponse ∧ runOf (step b s e) k = some RunPc.finished) := by
  cases e with
  | clickTranslate =>
    simp only [step]; split
    · left; rfl
    · rcases runOf_startTranslation s k with h | h
      · left; exact h
      · right; left; exact h
  | wsOpen j =>
    simp only [step]; split
    · rcases runOf_onopen (setReadyState s j ReadyState.open) j k with h | ⟨h1, h2, h3⟩
      · left; rw [h, runOf_setReadyState]
      · right; right; left
        rw [runOf_setReadyState] at h1
        refine ⟨h1, h2, ?_⟩
        subst h3
        simp [onopen_log]
    · left; rfl
  | wsFail j =>
    simp only [step]; split
    · left; rfl
    · rcases runOf_onerror (setReadyState s j ReadyState.closed) j k with h | ⟨h1, h2⟩
      · left
        rw [runOf_congr (onclose_sockets _), h, runOf_setReadyState]
      · right; right; right; left
        rw [runOf_setReadyState] at h1
        exact ⟨h1, by rw [runOf_congr (onclose_sockets _), h2]⟩
  | wsClosed j =>
    simp only [step]; split
    · left; rfl
    · left; rw [runOf_congr (onclose_sockets _), runOf_setReadyState]
  | timer t =>
    cases t with
    | settle j =>
      simp only [step]; split
      · split
        · rename_i hr
          rcases runOf_translatePdf b { s with timers := s.timers.erase (Timer.settle j) } j k hr
            with h | h | h
          · left; exact h.2
          · right; right; right; right; left
            obtain ⟨rfl, h2, h3⟩ := h
            exact ⟨hr, h2, h3⟩
          · right; right; right; right; right; left
            obtain ⟨rfl, h2⟩ := h
            exact ⟨hr, h2⟩
        · left; rfl
      · left; rfl
    | wsCompleted u =>
      simp only [step]; split
      · left; exact runOf_congr (completedTimeout_sockets _ _) k
      · left; rfl
    | httpCompleted =>
      simp only [step]; split
      · left; exact runOf_congr (translateTimeout_sockets _) k
      · left; rfl
  | translateSettled j r =>
    simp only [step]; split
    · rename_i hr
      rw [runOf_congr (translatePdfResponse_sockets _ _ _), runOf_setRun]
      by_cases hjk : j = k
      · subst hjk
        right; right; right; right; right; right
        refine ⟨hr, ?_⟩
        rw [if_pos rfl, hr]; rfl
      · left; rw [if_neg hjk]
    · left; rfl
  | _ =>
    left
    apply runOf_congr
    simp only [step]
    all_goals first
      | (split <;> simp)
      | simp

theorem inv_init (html : State) : Inv (init html) := by
  constructor
  · intro k h
    simp [runOf, init] at h
  · intro k f g h
    simp [init] at h

theorem inv_step (b : Browser) (s : State) (e : Event) (hs : Inv s) : Inv (step b s e) := by
  obtain ⟨h1, h2⟩ := hs
  have hlog := step_log b s e
  constructor
  · intro k hk
    rcases step_runOf b s e k with h | h | h | h | h | h | h
    · rw [h] at hk
      rw [hlog]; exact List.mem_append_left _ (h1 k hk)
    · rw [h.2] at hk; cases hk
    · exact h.2.2
    · rw [h.2] at hk; cases hk
    · rw [h.2.1] at hk; cases hk
    · rw [h.2] at hk; cases hk
    · rw [h.2] at hk; cases hk
  · intro k f g hk
    rw [hlog] at hk
    rcases List.mem_append.1 hk with hk | hk
    · obtain ⟨ho, hr⟩ := h2 k f g hk
      refine ⟨by rw [hlog]; exact List.mem_append_left _ ho, ?_⟩
      rcases step_runOf b s e k with h | h | h | h | h | h | h
      · rw [h]; exact hr
      · rw [h.1] at hr; rcases hr with hr | hr <;> cases hr
      · rw [h.1] at hr; rcases hr with hr | hr <;> cases hr
      · rw [h.1] at hr; rcases hr with hr | hr <;> cases hr
      · rw [h.1] at hr; rcases hr with hr | hr <;> cases hr
      · rw [h.1] at hr; rcases hr with hr | hr <;> cases hr
      · right; exact h.2
    · obtain ⟨_, hr, _, _, hn, _⟩ := step_request b s e k f g hk
      exact ⟨by rw [hlog]; exact List.mem_append_left _ (h1 k hr), Or.inl hn⟩

theorem run_append (b : Browser) (s : State) (es es2 : List Event) :
    run b s (es ++ es2) = run b (run b s es) es2 := by
  simp [run, List.foldl_append]

theorem inv_run (b : Browser) (s : State) (es : List Event) (hs : Inv s) : Inv (run b s es) := by
  induction es generalizing s with
  | nil => exact hs
  | cons e es ih => exact ih (step b s e) (inv_step b s e hs)

/-- An invocation that has returned without a translate request never issues one. -/
theorem finished_run (b : Browser) (es : List Event) (s : State) (k : Nat)
    (hf : runOf s k = some RunPc.finished) (hn : ∀ f g, Effect.postTranslate k f g ∉ s.log) :
    ∀ f g, Effect.postTranslate k f g ∉ (run b s es).log := by
  induction es generalizing s with
  | nil => exact hn
  | cons e es ih =>
    apply ih (step b s e)
    · rcases step_runOf b s e k with h | h | h | h | h | h | h
      · rw [h]; exact hf
      · rw [h.1] at hf; cases hf
      · rw [h.1] at hf; cases hf
      · rw [h.1] at hf; cases hf
      · rw [h.1] at hf; cases hf
      · rw [h.1] at hf; cases hf
      · rw [h.1] at hf; cases hf
    · intro f g hm
      rw [step_log] at hm
      rcases List.mem_append.1 hm with hm | hm
      · exact hn f g hm
      · have := (step_request b s e k f g hm).2.1
        rw [hf] at this; cases this

/-! ### C1: the translate request comes after the channel is ready -/

/-- C1: in every session and for every invocation `k` of `startTranslation`, a step that
issues the request `POST /api/translate` of `k` starts in a state where the handler `onopen`
of the socket of `k` has already run and the readiness flag is true, and it issues exactly
the `start_translation` message, on the socket `websocket` holds, followed by the request; an invocation whose socket never
opened has no translate request in the trace; and when the flag is false at the moment the
500 ms timer of `k` fires, `k` never issues a translate request, whatever happens later. -/
theorem translate_request_only_after_ready (b : Browser) (html : State) (es : List Event) :
    (∀ e k f g, Effect.postTranslate k f g ∈ issued b (run b (init html) es) e →
      Effect.opened k ∈ (run b (init html) es).log ∧
      (run b (init html) es).websocketReady = true ∧
      ∃ j, (run b (init html) es).websocket = some j ∧
        issued b (run b (init html) es) e =
          [Effect.wsSend j f g, Effect.postTranslate k f g]) ∧
    (∀ k f g, Effect.opened k ∉ (run b (init html) es).log →
      Effect.postTranslate k f g ∉ (run b (init html) es).log) ∧
    (∀ k, runOf (run b (init html) es) k = some RunPc.settling →
      Timer.settle k ∈ (run b (init html) es).timers →
      (run b (init html) es).websocketReady = false →
      ∀ es2 f g, Effect.postTranslate k f g ∉
        (run b (step b (run b (init html) es) (Event.timer (Timer.settle k))) es2).log) := by
  have hinv : Inv (run b (init html) es) := inv_run b (init html) es (inv_init html)
  refine ⟨?_, ?_, ?_⟩
  · intro e k f g h
    obtain ⟨_, hr, _, hready, _, j, hw, hj⟩ := step_request b _ e k f g h
    exact ⟨hinv.1 k hr, hready, j, hw, hj⟩
  · intro k f g hno hin
    exact hno (hinv.2 k f g hin).1
  · intro k hr hm hready es2
    have hstep : step b (run b (init html) es) (Event.timer (Timer.settle k)) =
        setRun { run b (init html) es with
          timers := (run b (init html) es).timers.erase (Timer.settle k) } k RunPc.finished := by
      simp only [step, if_pos hm]
      refine (if_pos (show runOf _ k = some RunPc.settling from hr)).trans ?_
      simp [translatePdf, hready]
    rw [hstep]
    apply finished_run
    · rw [runOf_setRun, if_pos rfl]
      show Option.map (fun _ => RunPc.finished) (runOf (run b (init html) es) k) = _
      rw [hr]; rfl
    · intro f g hin
      have hin2 : Effect.postTranslate k f g ∈ (run b (init html) es).log := hin
      rcases (hinv.2 k f g hin2).2 with h | h <;> rw [hr] at h <;> cases h

/-- C1 on concrete sessions: in `sessionOpened` the timer issues the start message and then
the request, with the flag set and the socket opened before; in `sessionClicked`, where the
socket has not opened, there is no request; in `sessionDropped`, where the socket closed
during the wait, the timer issues nothing. -/
theorem translate_request_only_after_ready_witness :
    (Effect.opened 0 ∈ (run asciiBrowser (init blankPage) sessionOpened).log ∧
      (run asciiBrowser (init blankPage) sessionOpened).websocketReady = true ∧
      ∃ j, (run asciiBrowser (init blankPage) sessionOpened).websocket = some j ∧
        issued asciiBrowser (run asciiBrowser (init blankPage) sessionOpened)
          (Event.timer (Timer.settle 0)) =
        [Effect.wsSend j "f1" "Spanish", Effect.postTranslate 0 "f1" "Spanish"]) ∧
    Effect.postTranslate 0 "f1" "Spanish" ∉
      (run asciiBrowser (init blankPage) sessionClicked).log ∧
    Effect.postTranslate 0 "f1" "Spanish" ∉
      (run asciiBrowser (step asciiBrowser (run asciiBrowser (init blankPage) sessionDropped)
        (Event.timer (Timer.settle 0))) []).log :=
  ⟨(translate_request_only_after_ready asciiBrowser blankPage sessionOpened).1
      (Event.timer (Timer.settle 0)) 0 "f1" "Spanish" (by decide),
   (translate_request_only_after_ready asciiBrowser blankPage sessionClicked).2.1
      0 "f1" "Spanish" (by decide),
   (translate_request_only_after_ready asciiBrowser blankPage sessionDropped).2.2 0
      (by decide) (by decide) (by decide) [] "f1" "Spanish"⟩

/-! ### C2: the two completion paths and what they show -/

/-- The timer callback of the `completed` message shows the completion panel with both
links set from the URL it captured. -/
theorem completedTimeout_view (s : State) (u : String) :
    completionView (completedTimeout s u) =
      (true, false, replace u "format=md" "format=pdf", u) := by
  unfold completedTimeout fetchTranslation
  split <;> rfl

/-- The timer callback of the translate response shows the completion panel, and sets both
links when the export URL of `translationData` is truthy. -/
theorem translateTimeout_view (s : State) (d : TranslationData) (u : String)
    (hd : s.translationData = some d) (hu : d.export_url = some u) (hne : u ≠ "") :
    completionView (translateTimeout s) =
      (true, false, replace u "format=md" "format=pdf", u) := by
  have ht : truthy (some u) = true := by simpa [truthy] using hne
  unfold translateTimeout
  simp only [hd, hu, ht, if_true, Option.getD_some]
  unfold populatePageSelector
  split <;> rfl

/-- The timer callback of the translate response leaves the links alone when the export URL
of `translationData` is not truthy. -/
theorem translateTimeout_view_falsy (s : State) (d : TranslationData)
    (hd : s.translationData = some d) (hu : truthy d.export_url = false) :
    completionView (translateTimeout s) = (true, false, s.downloadHref, s.downloadMdHref) := by
  unfold translateTimeout
  simp only [hd, hu]
  unfold populatePageSelector
  split <;> rfl

theorem step_wsCompleted (b : Browser) (s : State) (u : String)
    (h : Timer.wsCompleted u ∈ s.timers) :
    step b s (Event.timer (Timer.wsCompleted u)) =
      completedTimeout { s with timers := s.timers.erase (Timer.wsCompleted u) } u := by
  simp only [step, if_pos h]

theorem step_httpCompleted (b : Browser) (s : State) (h : Timer.httpCompleted ∈ s.timers) :
    step b s (Event.timer Timer.httpCompleted) =
      translateTimeout { s with timers := s.timers.erase Timer.httpCompleted } := by
  simp only [step, if_pos h]

theorem step_completed_message (b : Browser) (s : State) (k : Nat) (u : String)
    (h : readyStateOf s k = some ReadyState.open) :
    step b s (Event.wsMessage k (WsMessage.completed u)) =
      onmessage b s (WsMessage.completed u) := by
  simp only [step, if_pos h]

theorem step_translateSettled (b : Browser) (s : State) (k : Nat)
    (r : Response TranslationData) (h : runOf s k = some RunPc.awaitResponse) :
    step b s (Event.translateSettled k r) =
      translatePdfResponse b (setRun s k RunPc.finished) r := by
  simp only [step, if_pos h]

/-- A 2xx translate response with a body, arriving while the progress container is
visible, stores the body and registers the timer of line 424. -/
theorem translatePdfResponse_ok_visible (b : Browser) (s : State) (d : TranslationData)
    (h : s.progressContainerHidden = false) :
    (translatePdfResponse b s (Response.ok (Except.ok d))).translationData = some d ∧
    (translatePdfResponse b s (Response.ok (Except.ok d))).timers =
      s.timers ++ [Timer.httpCompleted] := by
  simp only [translatePdfResponse, h, if_true]
  exact ⟨rfl, rfl⟩

/-- C2: from a state where the translation of invocation `k` is under way, and for every
export URL `u` (a string that is not empty), completion through the channel alone and
completion through the translate response alone show the same: the progress container
hidden, the completion panel shown, the PDF link the export URL after the replacement and
the Markdown link the export URL. -/
theorem completion_paths_agree (b : Browser) (s : State) (k : Nat) (pages : List Page)
    (u : String) (hs : Translating s k) (hu : u ≠ "") :
    completionView (completeViaChannel b s k u) = completionView (completeViaHttp b s k pages u) ∧
    completionView (completeViaChannel b s k u) =
      (true, false, replace u "format=md" "format=pdf", u) := by
  obtain ⟨h1, h2, h3⟩ := hs
  have hc : completionView (completeViaChannel b s k u) =
      (true, false, replace u "format=md" "format=pdf", u) := by
    unfold completeViaChannel
    rw [step_completed_message b s k u h1, step_wsCompleted]
    · exact completedTimeout_view _ u
    · show Timer.wsCompleted u ∈ _ ++ [Timer.wsCompleted u]
      simp
  have hh : completionView (completeViaHttp b s k pages u) =
      (true, false, replace u "format=md" "format=pdf", u) := by
    unfold completeViaHttp
    have h4 : (setRun s k RunPc.finished).progressContainerHidden = false := h3
    obtain ⟨hd, ht⟩ := translatePdfResponse_ok_visible b (setRun s k RunPc.finished)
      { pages := pages, export_url := some u } h4
    rw [step_translateSettled b s k _ h2, step_httpCompleted]
    · exact translateTimeout_view _ _ u hd rfl hu
    · rw [ht]; simp
  exact ⟨hc.trans hh.symm, hc⟩

/-- C2 at a concrete state: the second translation of `sessionSecondTranslation` and the
export URL `/api/export/f1?format=md`. -/
theorem completion_paths_agree_witness :
    completionView (completeViaChannel asciiBrowser
        (run asciiBrowser (init blankPage) sessionSecondTranslation) 1
        "/api/export/f1?format=md") =
      completionView (completeViaHttp asciiBrowser
        (run asciiBrowser (init blankPage) sessionSecondTranslation) 1 []
        "/api/export/f1?format=md") ∧
    completionView (completeViaChannel asciiBrowser
        (run asciiBrowser (init blankPage) sessionSecondTranslation) 1
        "/api/export/f1?format=md") =
      (true, false, replace "/api/export/f1?format=md" "format=md" "format=pdf",
        "/api/export/f1?format=md") :=
  completion_paths_agree asciiBrowser (run asciiBrowser (init blankPage) sessionSecondTranslation)
    1 [] "/api/export/f1?format=md" (by decide) (by decide)

/-- The empty string, which is no export URL and which the guard of line 429 takes for a
missing one: in the second translation of `sessionSecondTranslation` the channel path, which
has no such guard, sets both links to the empty string, and the response path leaves the
links of the first translation in place. -/
theorem completion_paths_differ_on_empty_url :
    Translating (run asciiBrowser (init blankPage) sessionSecondTranslation) 1 ∧
    completionView (completeViaChannel asciiBrowser
        (run asciiBrowser (init blankPage) sessionSecondTranslation) 1 "") =
      (true, false, "", "") ∧
    completionView (completeViaHttp asciiBrowser
        (run asciiBrowser (init blankPage) sessionSecondTranslation) 1 [] "") =
      (true, false, "/api/export/f1?format=pdf", "/api/export/f1?format=md") ∧
    completionView (completeViaChannel asciiBrowser
        (run asciiBrowser (init blankPage) sessionSecondTranslation) 1 "") ≠
      completionView (completeViaHttp asciiBrowser
        (run asciiBrowser (init blankPage) sessionSecondTranslation) 1 [] "") := by
  decide

/-! ### C3: both completion signals for one translation -/

/-- C3 on the code: the second completion signal is applied again. In
`sessionResponseFirst` the transition has been made by the response and the user is in the
results view; the late `completed` message registers its timer all the same, and when the
timer runs the completion panel is shown over the results view and a `GET /api/translate`
is issued. In `sessionChannelFirst` the response arrives while the timer of the message is
pending and registers a second timer. -/
theorem completion_applied_twice :
    ((run asciiBrowser (init blankPage) sessionResponseFirst).timers =
        [Timer.wsCompleted "/api/export/f1?format=md"] ∧
      (run asciiBrowser (init blankPage) sessionResponseFirst).translationCompleteHidden = true ∧
      (run asciiBrowser (init blankPage) sessionResponseFirst).log =
        [Effect.postUpload ⟨"a.pdf", "application/pdf"⟩, Effect.wsCreate 0 "f1",
         Effect.opened 0, Effect.wsSend 0 "f1" "Spanish",
         Effect.postTranslate 0 "f1" "Spanish"]) ∧
    ((run asciiBrowser (init blankPage) (sessionResponseFirst ++
        [Event.timer (Timer.wsCompleted "/api/export/f1?format=md")])).translationCompleteHidden
        = false ∧
      (run asciiBrowser (init blankPage) (sessionResponseFirst ++
        [Event.timer (Timer.wsCompleted "/api/export/f1?format=md")])).resultsSectionHidden
        = false ∧
      (run asciiBrowser (init blankPage) (sessionResponseFirst ++
        [Event.timer (Timer.wsCompleted "/api/export/f1?format=md")])).log =
        [Effect.postUpload ⟨"a.pdf", "application/pdf"⟩, Effect.wsCreate 0 "f1",
         Effect.opened 0, Effect.wsSend 0 "f1" "Spanish",
         Effect.postTranslate 0 "f1" "Spanish", Effect.getTranslation "f1" "Spanish"]) ∧
    (run asciiBrowser (init blankPage) sessionChannelFirst).timers =
      [Timer.wsCompleted "/api/export/f1?format=md", Timer.httpCompleted] := by
  decide

/-! ### C4: the translate button after a failed translation -/

/-- C4 on the code: in `sessionDropped` the channel is no longer ready when the timer fires,
`translatePdf` returns at its guard, and the invocation ends with the button disabled, no
request issued and nothing pending; an `error` message of the channel leaves the button
disabled; a connection failure after the socket opened leaves it disabled too. The sibling
paths enable it: a non-2xx translate response, and a connection failure during the
handshake. -/
theorem refused_translation_keeps_button_disabled :
    ((run asciiBrowser (init blankPage)
        (sessionDropped ++ [Event.timer (Timer.settle 0)])).translateBtnDisabled = true ∧
      runOf (run asciiBrowser (init blankPage)
        (sessionDropped ++ [Event.timer (Timer.settle 0)])) 0 = some RunPc.finished ∧
      (run asciiBrowser (init blankPage)
        (sessionDropped ++ [Event.timer (Timer.settle 0)])).timers = [] ∧
      (run asciiBrowser (init blankPage)
        (sessionDropped ++ [Event.timer (Timer.settle 0)])).log =
        [Effect.postUpload ⟨"a.pdf", "application/pdf"⟩, Effect.wsCreate 0 "f1",
         Effect.opened 0] ∧
      (run asciiBrowser (init blankPage)
        (sessionDropped ++ [Event.timer (Timer.settle 0)])).progressStatus =
        "Initializing translation...") ∧
    ((run asciiBrowser (init blankPage)
        (sessionTranslating ++ [Event.wsMessage 0 (WsMessage.error "boom")])).progressStatus
        = "Error" ∧
      (run asciiBrowser (init blankPage)
        (sessionTranslating ++ [Event.wsMessage 0 (WsMessage.error "boom")])).translateBtnDisabled
        = true) ∧
    ((run asciiBrowser (init blankPage)
        (sessionOpened ++ [Event.wsFail 0, Event.timer (Timer.settle 0)])).notifications =
        ["Error connecting to translation service. Please try again."] ∧
      runOf (run asciiBrowser (init blankPage)
        (sessionOpened ++ [Event.wsFail 0, Event.timer (Timer.settle 0)])) 0 =
        some RunPc.finished ∧
      (run asciiBrowser (init blankPage)
        (sessionOpened ++ [Event.wsFail 0, Event.timer (Timer.settle 0)])).translateBtnDisabled
        = true) ∧
    ((run asciiBrowser (init blankPage) (sessionTranslating ++
        [Event.translateSettled 0 (Response.notOk (Except.ok { detail := some "boom" }))])
        ).translateBtnDisabled = false ∧
      (run asciiBrowser (init blankPage)
        (sessionClicked ++ [Event.wsFail 0])).translateBtnDisabled = false) := by
  decide

/-! ### C5: a new channel while an earlier one exists -/

/-- C5 on the code: in `sessionRestarted` socket 0 is closed by `setupWebSocket` and
socket 1 takes its place; socket 1 opens and sets the readiness flag; the `close` event of
socket 0 then clears the flag, so that the timer of the new invocation finds the channel not
ready and issues no request. In `sessionTwoSockets` the earlier socket is still connecting
when `setupWebSocket` runs again: it is not closed, both sockets are open at once, and a
progress message arriving on the earlier, open socket is written to the progress display of
the new translation. -/
theorem superseded_channel_still_heard :
    (readyStateOf (run asciiBrowser (init blankPage) sessionRestarted) 0 =
        some ReadyState.closing ∧
      (run asciiBrowser (init blankPage) sessionRestarted).websocket = some 1 ∧
      (run asciiBrowser (init blankPage)
        (sessionRestarted ++ [Event.wsOpen 1])).websocketReady = true ∧
      (run asciiBrowser (init blankPage)
        (sessionRestarted ++ [Event.wsOpen 1, Event.wsClosed 0])).websocketReady = false ∧
      (run asciiBrowser (init blankPage)
        (sessionRestarted ++ [Event.wsOpen 1, Event.wsClosed 0,
          Event.timer (Timer.settle 1)])).log =
        [Effect.postUpload ⟨"a.pdf", "application/pdf"⟩, Effect.wsCreate 0 "f1",
         Effect.opened 0, Effect.wsSend 0 "f1" "Spanish",
         Effect.postTranslate 0 "f1" "Spanish", Effect.wsClose 0, Effect.wsCreate 1 "f1",
         Effect.opened 1] ∧
      (run asciiBrowser (init blankPage)
        (sessionRestarted ++ [Event.wsOpen 1, Event.wsClosed 0,
          Event.timer (Timer.settle 1)])).translateBtnDisabled = true) ∧
    (Effect.wsClose 0 ∉ (run asciiBrowser (init blankPage) sessionTwoSockets).log ∧
      (run asciiBrowser (init blankPage) sessionTwoSockets).websocket = some 1 ∧
      readyStateOf (run asciiBrowser (init blankPage) sessionTwoSockets) 0 =
        some ReadyState.open ∧
      readyStateOf (run asciiBrowser (init blankPage) sessionTwoSockets) 1 =
        some ReadyState.open) ∧
    ((run asciiBrowser (init blankPage) sessionTwoSockets).progressDetails =
        "Connecting to translation service..." ∧
      (run asciiBrowser (init blankPage)
        (sessionTwoSockets ++
          [Event.wsMessage 0 (WsMessage.translating 50 "old page")])).progressDetails =
        "old page") := by
  decide

/-! ### The string primitives -/

/-- The test of `includes` holds exactly when the pattern is a contiguous block of the list. -/
theorem includesAux_iff (pat l : List Char) : includesAux pat l = true ↔ pat <:+: l := by
  induction l with
  | nil => simp [includesAux, List.isEmpty_iff]
  | cons c cs ih =>
    simp only [includesAux, Bool.or_eq_true, List.isPrefixOf_iff_prefix, ih]
    exact List.infix_cons_iff.symm

theorem includesAux_nil (l : List Char) : includesAux [] l = true :=
  (includesAux_iff [] l).2 List.nil_infix

/-- A list without an occurrence of the pattern is returned unchanged. -/
theorem replaceFirst_of_not_includes (pat rep l : List Char) (h : includesAux pat l = false) :
    replaceFirst pat rep l = l := by
  induction l with
  | nil =>
    simp only [includesAux] at h
    simp [replaceFirst, h]
  | cons c cs ih =>
    simp only [includesAux, Bool.or_eq_false_iff] at h
    simp [replaceFirst, h.1, ih h.2]

/-- The occurrence of the pattern after `pre` is replaced when no occurrence starts
earlier. -/
theorem replaceFirst_first (pat rep pre post : List Char) (hpat : pat ≠ [])
    (hfirst : ¬ pat <:+: pre ++ pat.dropLast) :
    replaceFirst pat rep (pre ++ pat ++ post) = pre ++ rep ++ post := by
  induction pre with
  | nil =>
    obtain ⟨p, ps, rfl⟩ := List.exists_cons_of_ne_nil hpat
    have hp : (p :: ps).isPrefixOf (p :: (ps ++ post)) = true := by
      rw [List.isPrefixOf_iff_prefix]
      exact ⟨post, rfl⟩
    have hd : List.drop (p :: ps).length (p :: (ps ++ post)) = post := by
      exact List.drop_left (p :: ps) post
    show replaceFirst (p :: ps) rep (p :: (ps ++ post)) = rep ++ post
    rw [replaceFirst, if_pos hp, hd]
  | cons x pre ih =>
    have hnp : pat.isPrefixOf (x :: (pre ++ pat ++ post)) = false := by
      rw [Bool.eq_false_iff]
      intro hp
      rw [List.isPrefixOf_iff_prefix] at hp
      apply hfirst
      have hsplit : x :: (pre ++ pat ++ post) =
          (x :: pre ++ pat.dropLast) ++ ([pat.getLast hpat] ++ post) := by
        conv_lhs => rw [← List.dropLast_append_getLast hpat]
        simp
      rw [hsplit] at hp
      have hlen : pat.length ≤ (x :: pre ++ pat.dropLast).length := by
        simp [List.length_dropLast]
        have : 0 < pat.length := List.length_pos.2 hpat
        omega
      exact (List.prefix_of_prefix_length_le hp (List.prefix_append _ _) hlen).isInfix
    have hrest : ¬ pat <:+: pre ++ pat.dropLast := by
      intro h
      apply hfirst
      exact h.trans (List.IsSuffix.isInfix ⟨[x], rfl⟩)
    show replaceFirst pat rep (x :: (pre ++ pat ++ post)) = x :: (pre ++ rep ++ post)
    rw [replaceFirst, hnp]
    simp only [Bool.false_eq_true, if_false, ih hrest]

/-- The method `includes` tests for a contiguous block of characters. -/
theorem includes_iff (s pat : String) : includes s pat = true ↔ pat.data <:+: s.data :=
  includesAux_iff pat.data s.data

/-! ### C6: a file that is not a PDF -/

/-- Every PDF media type contains the text `pdf`. -/
theorem isPdfMediaType_includes (mediaType : String) (h : isPdfMediaType mediaType = true) :
    includes mediaType "pdf" = true := by
  unfold isPdfMediaType at h
  rw [Bool.or_eq_true] at h
  rcases h with h | h
  · have : mediaType = "application/pdf" := by simpa using h
    subst this
    decide
  · rw [List.isPrefixOf_iff_prefix] at h
    rw [includes_iff]
    have hin : "pdf".data <:+: "application/pdf;".data :=
      (includes_iff "application/pdf;" "pdf").1 (by decide)
    exact hin.trans h.isInfix

/-- C6, as the code has it: `handleFile` looks for the text `pdf` in the declared type of
the file. When the text does not occur, the only change is one toast
`Please upload a PDF file`: no request is issued, no upload is pending, and the stored
identifier, the stored document, the file name, the upload status and the translation
section are as before. When it occurs, the file name is shown, the upload status is
revealed and the request `POST /api/upload` is issued for the file, without a toast; this
is so for every PDF media type. -/
theorem handleFile_rejects_non_pdf (s : State) (file : File) :
    (¬ "pdf".data <:+: file.type.data →
      (handleFile s file).notifications = s.notifications ++ ["Please upload a PDF file"] ∧
      (handleFile s file).log = s.log ∧
      (handleFile s file).pendingUploads = s.pendingUploads ∧
      (handleFile s file).fileId = s.fileId ∧
      (handleFile s file).pdfData = s.pdfData ∧
      (handleFile s file).fileNameText = s.fileNameText ∧
      (handleFile s file).uploadStatusHidden = s.uploadStatusHidden ∧
      (handleFile s file).uploadProgressHtml = s.uploadProgressHtml ∧
      (handleFile s file).translationSectionHidden = s.translationSectionHidden) ∧
    ("pdf".data <:+: file.type.data →
      (handleFile s file).log = s.log ++ [Effect.postUpload file] ∧
      (handleFile s file).pendingUploads = s.pendingUploads + 1 ∧
      (handleFile s file).notifications = s.notifications ∧
      (handleFile s file).fileNameText = file.name ∧
      (handleFile s file).uploadStatusHidden = false) ∧
    (isPdfMediaType file.type = true →
      (handleFile s file).log = s.log ++ [Effect.postUpload file] ∧
      (handleFile s file).notifications = s.notifications) := by
  refine ⟨?_, ?_, ?_⟩
  · intro h
    have hf : includes file.type "pdf" = false := by
      rw [Bool.eq_false_iff]
      intro hc
      exact h ((includes_iff _ _).1 hc)
    simp [handleFile, hf, showError]
  · intro h
    have ht : includes file.type "pdf" = true := (includes_iff _ _).2 h
    simp [handleFile, ht, uploadPdf]
  · intro h
    have ht : includes file.type "pdf" = true := isPdfMediaType_includes _ h
    simp [handleFile, ht, uploadPdf]

/-- C6 on two files: a text file gets the toast and no request, a PDF gets the request. -/
theorem handleFile_rejects_non_pdf_witness :
    ((handleFile (init blankPage) ⟨"notes.txt", "text/plain"⟩).notifications =
        (init blankPage).notifications ++ ["Please upload a PDF file"] ∧
      (handleFile (init blankPage) ⟨"notes.txt", "text/plain"⟩).log = (init blankPage).log) ∧
    (handleFile (init blankPage) ⟨"a.pdf", "application/pdf"⟩).log =
      (init blankPage).log ++ [Effect.postUpload ⟨"a.pdf", "application/pdf"⟩] ∧
    ((handleFile (init blankPage) ⟨"a.pdf", "application/pdf"⟩).log =
        (init blankPage).log ++ [Effect.postUpload ⟨"a.pdf", "application/pdf"⟩] ∧
      (handleFile (init blankPage) ⟨"a.pdf", "application/pdf"⟩).notifications =
        (init blankPage).notifications) :=
  ⟨⟨((handleFile_rejects_non_pdf (init blankPage) ⟨"notes.txt", "text/plain"⟩).1
        (fun h => absurd ((includes_iff "text/plain" "pdf").2 h) (by decide))).1,
    ((handleFile_rejects_non_pdf (init blankPage) ⟨"notes.txt", "text/plain"⟩).1
        (fun h => absurd ((includes_iff "text/plain" "pdf").2 h) (by decide))).2.1⟩,
   ((handleFile_rejects_non_pdf (init blankPage) ⟨"a.pdf", "application/pdf"⟩).2.1
        ((includes_iff "application/pdf" "pdf").1 (by decide))).1,
   (handleFile_rejects_non_pdf (init blankPage) ⟨"a.pdf", "application/pdf"⟩).2.2
        (by decide)⟩

/-- C6 as stated fails: `application/x-gzpdf`, the type of a compressed PDF, is not a PDF
media type, yet it contains the text `pdf`, so `handleFile` shows the file name, reveals the
upload status and issues the upload request, without a toast. -/
theorem handleFile_uploads_non_pdf_type :
    isPdfMediaType "application/x-gzpdf" = false ∧
    (handleFile (init blankPage) ⟨"manual.pdf.gz", "application/x-gzpdf"⟩).log =
      [Effect.postUpload ⟨"manual.pdf.gz", "application/x-gzpdf"⟩] ∧
    (handleFile (init blankPage) ⟨"manual.pdf.gz", "application/x-gzpdf"⟩).pendingUploads = 1 ∧
    (handleFile (init blankPage) ⟨"manual.pdf.gz", "application/x-gzpdf"⟩).notifications = [] ∧
    (handleFile (init blankPage) ⟨"manual.pdf.gz", "application/x-gzpdf"⟩).uploadStatusHidden
      = false := by
  decide

/-! ### C7: the outcomes of an upload -/

/-- C7, as the code has it: a 2xx response whose body parses stores the file identifier and
the document, reveals the translation section and shows `Upload complete` without a toast.
Every other outcome stores nothing, leaves the translation section as it was, shows
`Upload failed` and adds the toast `Error uploading PDF: ` followed by a message: for a
non-2xx response with a parsed body, the `detail` when it is a non-empty string and
`Upload failed` otherwise; for a rejected `fetch` or a body that does not parse (whatever
the status), the message of the error thrown. -/
theorem uploadPdf_outcomes (s : State) :
    (∀ data : UploadData,
      (uploadPdfResponse s (Response.ok (Except.ok data))).fileId = some data.file_id ∧
      (uploadPdfResponse s (Response.ok (Except.ok data))).pdfData = some data ∧
      (uploadPdfResponse s (Response.ok (Except.ok data))).translationSectionHidden = false ∧
      (uploadPdfResponse s (Response.ok (Except.ok data))).uploadProgressHtml =
        "<i class=\"fas fa-check-circle text-green-600 mr-2\"></i><span>Upload complete</span>" ∧
      (uploadPdfResponse s (Response.ok (Except.ok data))).notifications = s.notifications) ∧
    (∀ detail : String, detail ≠ "" →
      UploadFailedWith s
        (uploadPdfResponse s (Response.notOk (Except.ok { detail := some detail }))) detail) ∧
    UploadFailedWith s
      (uploadPdfResponse s (Response.notOk (Except.ok { detail := none }))) "Upload failed" ∧
    UploadFailedWith s
      (uploadPdfResponse s (Response.notOk (Except.ok { detail := some "" }))) "Upload failed" ∧
    (∀ message : String,
      UploadFailedWith s (uploadPdfResponse s (Response.networkError message)) message ∧
      UploadFailedWith s (uploadPdfResponse s (Response.notOk (Except.error message))) message ∧
      UploadFailedWith s (uploadPdfResponse s (Response.ok (Except.error message))) message) := by
  refine ⟨?_, ?_, ?_, ?_, ?_⟩
  · intro data
    simp only [uploadPdfResponse, showLanguageDropdown]
    split <;> simp
  · intro detail hd
    have ht : truthy (some detail) = true := by simpa [truthy] using hd
    simp [uploadPdfResponse, UploadFailedWith, uploadPdfCatch, showError, orElse, ht]
  · simp [uploadPdfResponse, UploadFailedWith, uploadPdfCatch, showError, orElse, truthy]
  · simp [uploadPdfResponse, UploadFailedWith, uploadPdfCatch, showError, orElse, truthy]
  · intro message
    simp [uploadPdfResponse, UploadFailedWith, uploadPdfCatch, showError]

/-- C7 on a concrete response: a 404 with the detail `File too large`. -/
theorem uploadPdf_outcomes_witness :
    UploadFailedWith (init blankPage)
      (uploadPdfResponse (init blankPage)
        (Response.notOk (Except.ok { detail := some "File too large" }))) "File too large" :=
  (uploadPdf_outcomes (init blankPage)).2.1 "File too large" (by decide)

/-- C7 as stated fails: after a rejected `fetch` the toast carries the message of the
network error and not the fallback `Upload failed`; a 2xx response whose body does not parse
stores nothing and reveals nothing; and a `detail` that is present but empty gives the
fallback. -/
theorem uploadPdf_message_not_always_detail_or_fallback :
    (uploadPdfResponse (init blankPage) (Response.networkError "Failed to fetch")).notifications
        = ["Error uploading PDF: Failed to fetch"] ∧
    ((uploadPdfResponse (init blankPage)
        (Response.ok (Except.error "Unexpected end of JSON input"))).fileId = none ∧
      (uploadPdfResponse (init blankPage)
        (Response.ok (Except.error "Unexpected end of JSON input"))).translationSectionHidden
        = true ∧
      (uploadPdfResponse (init blankPage)
        (Response.ok (Except.error "Unexpected end of JSON input"))).notifications
        = ["Error uploading PDF: Unexpected end of JSON input"]) ∧
    (uploadPdfResponse (init blankPage)
        (Response.notOk (Except.ok { detail := some "" }))).notifications
        = ["Error uploading PDF: Upload failed"] := by
  decide

/-! ### C8: the download links -/

/-- C8, as the code has it: the callback of the `completed` message sets the Markdown link
to the export URL and the PDF link to the result of `replace` on it; the callback of the
translate response does the same when the export URL is not the empty string. The result of
`replace`: when the URL is `pre`, then `format=md`, then `post`, and `format=md` does not
start earlier, it is `pre`, then `format=pdf`, then `post`; when `format=md` does not occur
in the URL, it is the URL. -/
theorem download_links (s : State) (u : String) :
    ((completedTimeout s u).downloadMdHref = u ∧
      (completedTimeout s u).downloadHref = replace u "format=md" "format=pdf") ∧
    (∀ d : TranslationData, s.translationData = some d → d.export_url = some u → u ≠ "" →
      (translateTimeout s).downloadMdHref = u ∧
      (translateTimeout s).downloadHref = replace u "format=md" "format=pdf") ∧
    (∀ pre post : String, u = pre ++ "format=md" ++ post →
      includes (pre ++ "format=m") "format=md" = false →
      replace u "format=md" "format=pdf" = pre ++ "format=pdf" ++ post) ∧
    (includes u "format=md" = false → replace u "format=md" "format=pdf" = u) := by
  refine ⟨?_, ?_, ?_, ?_⟩
  · have h := completedTimeout_view s u
    simp only [completionView, Prod.mk.injEq] at h
    exact ⟨h.2.2.2, h.2.2.1⟩
  · intro d hd hu hne
    have h := translateTimeout_view s d u hd hu hne
    simp only [completionView, Prod.mk.injEq] at h
    exact ⟨h.2.2.2, h.2.2.1⟩
  · intro pre post hu hfirst
    have hf : ¬ "format=md".data <:+: pre.data ++ "format=md".data.dropLast := by
      intro hc
      have := (includes_iff (pre ++ "format=m") "format=md").2 (by simpa using hc)
      rw [hfirst] at this
      cases this
    have hr := replaceFirst_first "format=md".data "format=pdf".data pre.data post.data
      (by decide) hf
    subst hu
    apply String.ext
    simpa [replace] using hr
  · intro h
    apply String.ext
    exact replaceFirst_of_not_includes _ _ _ h

/-- C8 on the URL of the specification: `format=md` in the query becomes `format=pdf` and
the rest stays; a URL without `format=md` is kept. -/
theorem download_links_witness :
    ((translateTimeout (pageWithExportUrl "https://host/api/export?format=md&x=1")
        ).downloadMdHref = "https://host/api/export?format=md&x=1" ∧
      (translateTimeout (pageWithExportUrl "https://host/api/export?format=md&x=1")
        ).downloadHref =
        replace "https://host/api/export?format=md&x=1" "format=md" "format=pdf") ∧
    replace "https://host/api/export?format=md&x=1" "format=md" "format=pdf" =
      "https://host/api/export?" ++ "format=pdf" ++ "&x=1" ∧
    replace "https://host/api/export" "format=md" "format=pdf" = "https://host/api/export" :=
  ⟨(download_links (pageWithExportUrl "https://host/api/export?format=md&x=1")
      "https://host/api/export?format=md&x=1").2.1 _ rfl rfl (by decide),
   (download_links (init blankPage) "https://host/api/export?format=md&x=1").2.2.1
      "https://host/api/export?" "&x=1" (by decide) (by decide),
   (download_links (init blankPage) "https://host/api/export").2.2.2 (by decide)⟩

/-- C8 as stated fails. When the text `format=md` also occurs before the query, it is
replaced there and the query parameter stays; and on the response path an empty export URL
leaves both links as the first translation set them (session `sessionEmptyUrl`). -/
theorem download_links_not_the_query_parameter :
    ((completedTimeout (init blankPage) "/files/format=md/export?format=md").downloadHref =
        "/files/format=pdf/export?format=md" ∧
      (translateTimeout (pageWithExportUrl "/files/format=md/export?format=md")
        ).downloadHref = "/files/format=pdf/export?format=md") ∧
    ((run asciiBrowser (init blankPage) sessionEmptyUrl).translationData =
        some { pages := [], export_url := some "" } ∧
      (run asciiBrowser (init blankPage) sessionEmptyUrl).translationCompleteHidden = false ∧
      (run asciiBrowser (init blankPage) sessionEmptyUrl).downloadMdHref =
        "/api/export/f1?format=md" ∧
      (run asciiBrowser (init blankPage) sessionEmptyUrl).downloadHref =
        "/api/export/f1?format=pdf") := by
  decide

/-! ### C9: the language filter -/

theorem shownLanguages_map (s : State) (l : List String)
    (h : s.dropdownItems = l.map DropdownItem.lang) : shownLanguages s = l := by
  unfold shownLanguages
  rw [h]
  clear h
  induction l with
  | nil => rfl
  | cons a l ih => exact congrArg (List.cons a) ih

theorem shownLanguages_noResult (s : State) (h : s.dropdownItems = [DropdownItem.noResult]) :
    shownLanguages s = [] := by
  unfold shownLanguages
  rw [h]; rfl

/-- What `filterLanguages` renders for a catalog that is not empty. -/
theorem filterLanguages_items (b : Browser) (s : State) (hne : s.languages ≠ []) :
    (filterLanguages b s).dropdownHidden = false ∧
    (filterLanguages b s).dropdownItems =
      if s.languages.filter (fun l =>
          includes (b.toLowerCase l) (b.toLowerCase s.languageSearchValue)) = [] then
        [DropdownItem.noResult]
      else
        (s.languages.filter (fun l =>
          includes (b.toLowerCase l) (b.toLowerCase s.languageSearchValue))).map
          DropdownItem.lang := by
  have hlen : ¬ s.languages.length = 0 := by
    intro h; exact hne (List.length_eq_zero.1 h)
  by_cases hq : b.toLowerCase s.languageSearchValue = ""
  · have hall : s.languages.filter (fun l =>
        includes (b.toLowerCase l) (b.toLowerCase s.languageSearchValue)) = s.languages := by
      rw [List.filter_eq_self]
      intro l _
      rw [hq]
      exact includesAux_nil _
    rw [hall, if_neg hne]
    simp only [filterLanguages, hq, if_true, showLanguageDropdown, if_neg hlen]
    refine ⟨?_, ?_⟩ <;> first | rfl | trivial
  · simp only [filterLanguages, hq, if_false, List.length_eq_zero]
    split
    · exact ⟨rfl, rfl⟩
    · exact ⟨rfl, rfl⟩

/-- C9, as the code has it. For a catalog that is not empty, `filterLanguages` shows the
dropdown; when some entry matches the query (the lower-cased name contains the lower-cased
query) the dropdown holds the matching entries, each as often as in the catalog and in
catalog order, and nothing else; when no entry matches it holds the single entry
`No languages found`; for the empty query it holds the whole catalog. For the empty catalog,
a query that is not empty after lower-casing gives the entry `No languages found`, and a
query that is empty after lower-casing changes nothing. -/
theorem filterLanguages_renders (b : Browser) (s : State) :
    (s.languages ≠ [] →
      (filterLanguages b s).dropdownHidden = false ∧
      ((∃ l ∈ s.languages,
          includes (b.toLowerCase l) (b.toLowerCase s.languageSearchValue) = true) →
        (filterLanguages b s).dropdownItems =
          (s.languages.filter (fun l =>
            includes (b.toLowerCase l) (b.toLowerCase s.languageSearchValue))).map
            DropdownItem.lang) ∧
      ((∀ l ∈ s.languages,
          includes (b.toLowerCase l) (b.toLowerCase s.languageSearchValue) = false) →
        (filterLanguages b s).dropdownItems = [DropdownItem.noResult]) ∧
      (shownLanguages (filterLanguages b s)).Sublist s.languages ∧
      (∀ l, l ∈ shownLanguages (filterLanguages b s) ↔
        l ∈ s.languages ∧
          (b.toLowerCase s.languageSearchValue).data <:+: (b.toLowerCase l).data) ∧
      (∀ l, includes (b.toLowerCase l) (b.toLowerCase s.languageSearchValue) = true →
        (shownLanguages (filterLanguages b s)).count l = s.languages.count l) ∧
      (s.languageSearchValue = "" →
        (filterLanguages b s).dropdownItems = s.languages.map DropdownItem.lang)) ∧
    (s.languages = [] → b.toLowerCase s.languageSearchValue ≠ "" →
      (filterLanguages b s).dropdownItems = [DropdownItem.noResult] ∧
      (filterLanguages b s).dropdownHidden = false) ∧
    (s.languages = [] → b.toLowerCase s.languageSearchValue = "" →
      filterLanguages b s = s) := by
  refine ⟨?_, ?_, ?_⟩
  · intro hne
    obtain ⟨hh, hi⟩ := filterLanguages_items b s hne
    have hshown : shownLanguages (filterLanguages b s) = s.languages.filter (fun l =>
        includes (b.toLowerCase l) (b.toLowerCase s.languageSearchValue)) := by
      by_cases hf : s.languages.filter (fun l =>
          includes (b.toLowerCase l) (b.toLowerCase s.languageSearchValue)) = []
      · rw [if_pos hf] at hi
        rw [shownLanguages_noResult _ hi, hf]
      · rw [if_neg hf] at hi
        exact shownLanguages_map _ _ hi
    refine ⟨hh, ?_, ?_, ?_, ?_, ?_, ?_⟩
    · rintro ⟨l, hl, hp⟩
      have hf : s.languages.filter (fun l =>
          includes (b.toLowerCase l) (b.toLowerCase s.languageSearchValue)) ≠ [] := by
        intro hc
        have : l ∈ s.languages.filter (fun l =>
            includes (b.toLowerCase l) (b.toLowerCase s.languageSearchValue)) :=
          List.mem_filter.2 ⟨hl, hp⟩
        rw [hc] at this
        cases this
      rw [hi, if_neg hf]
    · intro hnone
      have hf : s.languages.filter (fun l =>
          includes (b.toLowerCase l) (b.toLowerCase s.languageSearchValue)) = [] := by
        rw [List.filter_eq_nil_iff]
        intro l hl
        rw [hnone l hl]
        decide
      rw [hi, if_pos hf]
    · rw [hshown]
      exact List.filter_sublist _
    · intro l
      rw [hshown, List.mem_filter, includes_iff]
    · intro l hl
      rw [hshown]
      exact List.count_filter hl
    · intro hq
      have hall : s.languages.filter (fun l =>
          includes (b.toLowerCase l) (b.toLowerCase s.languageSearchValue)) = s.languages := by
        rw [List.filter_eq_self]
        intro l _
        rw [hq, b.toLowerCase_empty]
        exact includesAux_nil _
      rw [hi, hall, if_neg hne]
  · intro he hq
    simp [filterLanguages, hq, he]
  · intro he hq
    simp [filterLanguages, hq, he, showLanguageDropdown]

/-- C9 on the example of the specification: the query `span` renders `Spanish` alone, the
query `zz` renders the entry `No languages found`, and the empty query the whole catalog;
with the empty catalog the query `zz` renders that entry and the empty query changes
nothing. -/
theorem filterLanguages_renders_witness :
    (filterLanguages asciiBrowser (catalogPage "span")).dropdownItems =
      [DropdownItem.lang "Spanish"] ∧
    (filterLanguages asciiBrowser (catalogPage "zz")).dropdownItems = [DropdownItem.noResult] ∧
    (filterLanguages asciiBrowser (catalogPage "")).dropdownItems =
      [DropdownItem.lang "French", DropdownItem.lang "Spanish", DropdownItem.lang "German"] ∧
    ((filterLanguages asciiBrowser (emptyCatalogPage "zz")).dropdownItems =
        [DropdownItem.noResult] ∧
      (filterLanguages asciiBrowser (emptyCatalogPage "zz")).dropdownHidden = false) ∧
    filterLanguages asciiBrowser (emptyCatalogPage "") = emptyCatalogPage "" :=
  ⟨(((filterLanguages_renders asciiBrowser (catalogPage "span")).1 (by decide)).2.1
      ⟨"Spanish", by decide, by decide⟩).trans (by decide),
   ((filterLanguages_renders asciiBrowser (catalogPage "zz")).1 (by decide)).2.2.1
      (by decide),
   ((filterLanguages_renders asciiBrowser (catalogPage "")).1 (by decide)).2.2.2.2.2.2 rfl,
   (filterLanguages_renders asciiBrowser (emptyCatalogPage "zz")).2.1 rfl (by decide),
   (filterLanguages_renders asciiBrowser (emptyCatalogPage "")).2.2 rfl rfl⟩

/-- C9 as stated fails for the empty catalog and the empty query: `filterLanguages` returns
at line 193 without rendering. On the page as loaded the dropdown stays empty and hidden, so
no `No languages found` entry appears; after the query `zz` has put that entry there, the
empty query leaves it on display. -/
theorem filterLanguages_empty_catalog_empty_query :
    ((init blankPage).languages = [] ∧
      (step asciiBrowser (init blankPage) (Event.searchInput "")).dropdownItems = [] ∧
      (step asciiBrowser (init blankPage) (Event.searchInput "")).dropdownHidden = true) ∧
    ((run asciiBrowser (init blankPage) [Event.searchInput "zz"]).dropdownItems =
        [DropdownItem.noResult] ∧
      (run asciiBrowser (init blankPage)
        [Event.searchInput "zz", Event.searchInput ""]).dropdownItems =
        [DropdownItem.noResult] ∧
      (run asciiBrowser (init blankPage)
        [Event.searchInput "zz", Event.searchInput ""]).dropdownHidden = false) := by
  decide

/-! ### C10: the page viewer -/

theorem find_page_none (l : List Page) (n : Nat) (h : ∀ p ∈ l, p.page_number ≠ n) :
    l.find? (fun page => some page.page_number == some n) = none := by
  rw [List.find?_eq_none]
  intro p hp
  simpa using h p hp

theorem find_page_first (pre post : List Page) (p : Page) (n : Nat) (hp : p.page_number = n)
    (hpre : ∀ q ∈ pre, q.page_number ≠ n) :
    (pre ++ p :: post).find? (fun page => some page.page_number == some n) = some p := by
  rw [List.find?_append, find_page_none pre n hpre]
  simp [hp]

/-- The two panes after `displaySelectedPage`, by the outcome of the two searches. -/
theorem displaySelectedPage_texts (s : State) (pdfData : UploadData)
    (translationData : TranslationData) (hp : s.pdfData = some pdfData)
    (ht : s.translationData = some translationData) :
    (displaySelectedPage s).originalText =
      (match pdfData.pages.find? (fun page => some page.page_number == s.pageSelectorValue) with
        | some page => page.content
        | none => "No content available") ∧
    (displaySelectedPage s).translatedText =
      (match translationData.pages.find?
          (fun page => some page.page_number == s.pageSelectorValue) with
        | some page => page.content
        | none => "No translation available") := by
  unfold displaySelectedPage
  simp only [hp, ht]
  cases pdfData.pages.find? (fun page => some page.page_number == s.pageSelectorValue) <;>
    cases translationData.pages.find?
      (fun page => some page.page_number == s.pageSelectorValue) <;>
    exact ⟨rfl, rfl⟩

/-- C10: with a document and a translation stored and page `n` selected, the original pane
shows the content of the first original page numbered `n`, or `No content available` when
no original page has that number; the translated pane shows the content of the first
translated page numbered `n`, or `No translation available` when no translated page has that
number. Each pane depends on its own list only. -/
theorem displaySelectedPage_lookups (s : State) (pdfData : UploadData)
    (translationData : TranslationData) (n : Nat) (hp : s.pdfData = some pdfData)
    (ht : s.translationData = some translationData) (hn : s.pageSelectorValue = some n) :
    ((∀ p ∈ pdfData.pages, p.page_number ≠ n) →
      (displaySelectedPage s).originalText = "No content available") ∧
    (∀ pre p post, pdfData.pages = pre ++ p :: post → p.page_number = n →
      (∀ q ∈ pre, q.page_number ≠ n) → (displaySelectedPage s).originalText = p.content) ∧
    ((∀ p ∈ translationData.pages, p.page_number ≠ n) →
      (displaySelectedPage s).translatedText = "No translation available") ∧
    (∀ pre p post, translationData.pages = pre ++ p :: post → p.page_number = n →
      (∀ q ∈ pre, q.page_number ≠ n) → (displaySelectedPage s).translatedText = p.content) := by
  obtain ⟨ho, htr⟩ := displaySelectedPage_texts s pdfData translationData hp ht
  rw [hn] at ho htr
  refine ⟨?_, ?_, ?_, ?_⟩
  · intro h
    rw [ho, find_page_none _ n h]
  · intro pre p post hl hpn hpre
    rw [ho, hl, find_page_first pre post p n hpn hpre]
  · intro h
    rw [htr, find_page_none _ n h]
  · intro pre p post hl hpn hpre
    rw [htr, hl, find_page_first pre post p n hpn hpre]

/-- C10 on the example of the specification: with page 3 selected and only page 2
translated, the panes show the text of page 3 and `No translation available`; with page 2
selected they show both texts; with a page 7 selected, which no list has, both
placeholders. -/
theorem displaySelectedPage_lookups_witness :
    ((displaySelectedPage (viewerPage 3)).originalText = "three" ∧
      (displaySelectedPage (viewerPage 3)).translatedText = "No translation available") ∧
    (displaySelectedPage (viewerPage 2)).translatedText = "dos" ∧
    (displaySelectedPage (viewerPage 7)).originalText = "No content available" :=
  ⟨⟨(displaySelectedPage_lookups (viewerPage 3) sampleDocument
        { pages := [⟨2, "dos"⟩], export_url := none } 3 rfl rfl rfl).2.1
        [⟨1, "one"⟩, ⟨2, "two"⟩] ⟨3, "three"⟩ [] rfl rfl (by decide),
     (displaySelectedPage_lookups (viewerPage 3) sampleDocument
        { pages := [⟨2, "dos"⟩], export_url := none } 3 rfl rfl rfl).2.2.1 (by decide)⟩,
   (displaySelectedPage_lookups (viewerPage 2) sampleDocument
      { pages := [⟨2, "dos"⟩], export_url := none } 2 rfl rfl rfl).2.2.2
      [] ⟨2, "dos"⟩ [] rfl rfl (by decide),
   (displaySelectedPage_lookups (viewerPage 7) sampleDocument
      { pages := [⟨2, "dos"⟩], export_url := none } 7 rfl rfl rfl).1 (by decide)⟩

/-! ### C11: the toast of a failed translation -/

theorem translatePdfCatch_notifications (s : State) (m : String) :
    (translatePdfCatch s m).notifications =
      s.notifications ++
        [if includes m "API key" then configurationNotice else "Translation failed: " ++ m] := by
  unfold translatePdfCatch
  simp only []
  split <;> rfl

theorem generic_ne_configurationNotice (m : String) (h : includes m "API key" = false) :
    "Translation failed: " ++ m ≠ configurationNotice := by
  intro hc
  have hd := congrArg String.data hc
  have hm : m.data = ("OpenAI API key is invalid or not configured properly. "
      ++ "Please check your .env file and restart the server.").data := by
    have hsplit : configurationNotice.data = "Translation failed: ".data ++
        ("OpenAI API key is invalid or not configured properly. "
          ++ "Please check your .env file and restart the server.").data := by decide
    rw [String.data_append, hsplit] at hd
    exact List.append_cancel_left hd
  have : includes m "API key" = true := by
    unfold includes
    rw [hm]
    decide
  rw [h] at this
  cases this

/-- C11, as the code has it. The `catch` block of `translatePdf` adds one toast: the
configuration notice when the message of the error contains `API key`, and
`Translation failed: ` followed by the message otherwise; the toast is the configuration
notice exactly when the message contains `API key`. The message is: for a non-2xx response
with a parsed body, the `detail` when it is a non-empty string and `Translation failed`
otherwise; for a rejected `fetch` or a body that does not parse, the message of the error
thrown; for a `send` on a socket that is still connecting, the message of its exception. -/
theorem translatePdf_failure_notice (b : Browser) (s : State) :
    (∀ m : String, includes m "API key" = true →
      (translatePdfCatch s m).notifications = s.notifications ++ [configurationNotice]) ∧
    (∀ m : String, includes m "API key" = false →
      (translatePdfCatch s m).notifications =
        s.notifications ++ ["Translation failed: " ++ m]) ∧
    (∀ m : String,
      (translatePdfCatch s m).notifications = s.notifications ++ [configurationNotice] ↔
        "API key".data <:+: m.data) ∧
    (∀ detail : String, detail ≠ "" →
      translatePdfResponse b s (Response.notOk (Except.ok { detail := some detail })) =
        translatePdfCatch s detail) ∧
    translatePdfResponse b s (Response.notOk (Except.ok { detail := none })) =
      translatePdfCatch s "Translation failed" ∧
    translatePdfResponse b s (Response.notOk (Except.ok { detail := some "" })) =
      translatePdfCatch s "Translation failed" ∧
    (∀ m : String,
      translatePdfResponse b s (Response.networkError m) = translatePdfCatch s m ∧
      translatePdfResponse b s (Response.notOk (Except.error m)) = translatePdfCatch s m ∧
      translatePdfResponse b s (Response.ok (Except.error m)) = translatePdfCatch s m) ∧
    (∀ k j : Nat, truthy s.fileId = true → truthy s.selectedLanguage = true →
      s.websocketReady = true → s.websocket = some j →
      readyStateOf s j = some ReadyState.connecting →
      translatePdf b s k = setRun (translatePdfCatch s b.sendErrorMessage) k RunPc.finished) := by
  refine ⟨?_, ?_, ?_, ?_, ?_, ?_, ?_, ?_⟩
  · intro m h
    rw [translatePdfCatch_notifications, if_pos h]
  · intro m h
    rw [translatePdfCatch_notifications, h]
    rfl
  · intro m
    rw [← includes_iff, translatePdfCatch_notifications]
    constructor
    · intro h
      by_contra hn
      have hf : includes m "API key" = false := by simpa using hn
      rw [hf] at h
      have h2 := List.append_cancel_left h
      simp only [Bool.false_eq_true, if_false, List.cons.injEq, and_true] at h2
      exact generic_ne_configurationNotice m hf h2
    · intro h
      rw [if_pos h]
  · intro detail hd
    have ht : truthy (some detail) = true := by simpa [truthy] using hd
    simp [translatePdfResponse, orElse, ht]
  · simp [translatePdfResponse, orElse, truthy]
  · simp [translatePdfResponse, orElse, truthy]
  · intro m
    exact ⟨rfl, rfl, rfl⟩
  · intro k j hf hl hr hw hc
    simp [translatePdf, hf, hl, hr, hw, hc]

/-- C11 on the example of the specification: the message `Invalid API key configured`
gives the configuration notice; the message `boom` gives the generic toast; a non-2xx
response with that detail hands it to the `catch` block; and in `sessionRestartedInWait`
the exception of `send` does. -/
theorem translatePdf_failure_notice_witness :
    (translatePdfCatch (init blankPage) "Invalid API key configured").notifications =
      (init blankPage).notifications ++ [configurationNotice] ∧
    (translatePdfCatch (init blankPage) "boom").notifications =
      (init blankPage).notifications ++ ["Translation failed: " ++ "boom"] ∧
    translatePdfResponse asciiBrowser (init blankPage)
        (Response.notOk (Except.ok { detail := some "Invalid API key configured" })) =
      translatePdfCatch (init blankPage) "Invalid API key configured" ∧
    translatePdf asciiBrowser (run asciiBrowser (init blankPage) sessionRestartedInWait) 0 =
      setRun (translatePdfCatch (run asciiBrowser (init blankPage) sessionRestartedInWait)
        asciiBrowser.sendErrorMessage) 0 RunPc.finished :=
  ⟨(translatePdf_failure_notice asciiBrowser (init blankPage)).1
      "Invalid API key configured" (by decide),
   (translatePdf_failure_notice asciiBrowser (init blankPage)).2.1 "boom" (by decide),
   (translatePdf_failure_notice asciiBrowser (init blankPage)).2.2.2.1
      "Invalid API key configured" (by decide),
   (translatePdf_failure_notice asciiBrowser
      (run asciiBrowser (init blankPage) sessionRestartedInWait)).2.2.2.2.2.2.2 0 1
      (by decide) (by decide) (by decide) (by decide) (by decide)⟩

/-- C11 as stated fails for the message: after a rejected `fetch` the toast carries the
message of the network error, not the fallback; a `detail` that is present but empty gives
the fallback; and in `sessionSendThrows`, where `send` throws on a connecting socket, the
toast carries the message of that exception. -/
theorem translatePdf_message_not_always_detail_or_fallback :
    (run asciiBrowser (init blankPage) (sessionTranslating ++
        [Event.translateSettled 0 (Response.networkError "Failed to fetch")])).notifications =
      ["Translation failed: Failed to fetch"] ∧
    (run asciiBrowser (init blankPage) (sessionTranslating ++
        [Event.translateSettled 0 (Response.notOk (Except.ok { detail := some "" }))])
        ).notifications = ["Translation failed: Translation failed"] ∧
    (run asciiBrowser (init blankPage) sessionSendThrows).notifications =
      ["Translation failed: Failed to execute send on WebSocket: Still in CONNECTING state."] := by
  decide

/-! ### C12: the progress display -/

/-- The value `Math.round` gives lies within one half of its argument, a tie going up. -/
theorem mathRound_bounds (p : ℚ) :
    (mathRound p : ℚ) - 1 / 2 ≤ p ∧ p < (mathRound p : ℚ) + 1 / 2 := by
  unfold mathRound
  have h1 := Int.floor_le (p + 1 / 2)
  have h2 := Int.lt_floor_add_one (p + 1 / 2)
  constructor <;> linarith

/-- The one integer within one half of `p`, a tie going up, is what `Math.round` gives. -/
theorem mathRound_eq (p : ℚ) (n : Int) (h1 : (n : ℚ) - 1 / 2 ≤ p) (h2 : p < (n : ℚ) + 1 / 2) :
    mathRound p = n := by
  unfold mathRound
  rw [Int.floor_eq_iff]
  constructor <;> linarith

/-- No integer is nearer to `p` than the one `Math.round` gives. -/
theorem mathRound_nearest (p : ℚ) (n : Int) :
    |p - (mathRound p : ℚ)| ≤ |p - (n : ℚ)| := by
  obtain ⟨h1, h2⟩ := mathRound_bounds p
  have hr : |p - (mathRound p : ℚ)| ≤ 1 / 2 := by
    rw [abs_le]
    constructor <;> linarith
  by_cases hn : n = mathRound p
  · rw [hn]
  · have hhalf : (1 : ℚ) / 2 ≤ |p - (n : ℚ)| := by
      rcases lt_or_gt_of_ne hn with hlt | hgt
      · have h3 : n + 1 ≤ mathRound p := hlt
        have h4 : ((n + 1 : Int) : ℚ) ≤ (mathRound p : ℚ) := by exact_mod_cast h3
        have h5 : ((n + 1 : Int) : ℚ) = (n : ℚ) + 1 := by push_cast; ring
        have : (1 : ℚ) / 2 ≤ p - (n : ℚ) := by linarith
        exact this.trans (le_abs_self _)
      · have h3 : mathRound p + 1 ≤ n := hgt
        have h4 : ((mathRound p + 1 : Int) : ℚ) ≤ (n : ℚ) := by exact_mod_cast h3
        have h5 : ((mathRound p + 1 : Int) : ℚ) = (mathRound p : ℚ) + 1 := by push_cast; ring
        have : (1 : ℚ) / 2 ≤ -(p - (n : ℚ)) := by linarith
        exact this.trans (neg_le_abs _)
    exact hr.trans hhalf

theorem mathRound_hundred : mathRound 100 = 100 :=
  mathRound_eq 100 100 (by norm_num) (by norm_num)

theorem mathRound_sixty_six_point_seven : mathRound (667 / 10) = 67 :=
  mathRound_eq (667 / 10) 67 (by norm_num) (by norm_num)

/-- C12: for every finite progress value `p`, `updateProgressBar` assigns the same string
to the percentage label and to the width of the bar: the number `Math.round` gives for `p`,
as the language prints it, followed by `%`. That number is within one half of `p`, a tie
going up, so that no integer is nearer to `p`; up to a magnitude of 2^53 it is printed as
its decimal numeral. The `translating` and `page_completed` messages display their progress
value this way, and the `completed` message displays `100%`. -/
theorem updateProgressBar_rounds (b : Browser) (s : State) (p : ℚ) :
    ((updateProgressBar b s p).progressPercentage = numberToString b (mathRound p) ++ "%" ∧
      (updateProgressBar b s p).progressBarWidth = numberToString b (mathRound p) ++ "%") ∧
    ((mathRound p : ℚ) - 1 / 2 ≤ p ∧ p < (mathRound p : ℚ) + 1 / 2) ∧
    (∀ n : Int, |p - (mathRound p : ℚ)| ≤ |p - (n : ℚ)|) ∧
    ((mathRound p).natAbs ≤ 2 ^ 53 →
      numberToString b (mathRound p) = toString (mathRound p)) ∧
    (∀ message : String,
      ((onmessage b s (WsMessage.translating p message)).progressPercentage =
          numberToString b (mathRound p) ++ "%" ∧
        (onmessage b s (WsMessage.translating p message)).progressBarWidth =
          numberToString b (mathRound p) ++ "%") ∧
      ((onmessage b s (WsMessage.page_completed p message)).progressPercentage =
          numberToString b (mathRound p) ++ "%" ∧
        (onmessage b s (WsMessage.page_completed p message)).progressBarWidth =
          numberToString b (mathRound p) ++ "%")) ∧
    (∀ export_url : String,
      (onmessage b s (WsMessage.completed export_url)).progressPercentage = "100%" ∧
      (onmessage b s (WsMessage.completed export_url)).progressBarWidth = "100%") := by
  refine ⟨⟨rfl, rfl⟩, mathRound_bounds p, mathRound_nearest p, ?_, ?_, ?_⟩
  · intro h
    unfold numberToString
    rw [if_pos h]
  · intro message
    exact ⟨⟨rfl, rfl⟩, ⟨rfl, rfl⟩⟩
  · intro export_url
    have h : numberToString b (mathRound 100) ++ "%" = "100%" := by
      rw [mathRound_hundred]
      unfold numberToString
      rw [if_pos (by decide)]
      decide
    exact ⟨h, h⟩

/-- C12 on the example of the specification: for 66.7, as the fraction 667/10 and as the
double nearest to it, the label reads `67%` and the width is `67%`. -/
theorem updateProgressBar_rounds_witness :
    ((updateProgressBar asciiBrowser (init blankPage) (667 / 10)).progressPercentage = "67%" ∧
      (updateProgressBar asciiBrowser (init blankPage) (667 / 10)).progressBarWidth = "67%") ∧
    (updateProgressBar asciiBrowser (init blankPage)
        (4693595236650189 / 70368744177664)).progressPercentage = "67%" ∧
    numberToString asciiBrowser (mathRound (667 / 10)) = toString (mathRound (667 / 10)) :=
  ⟨⟨(updateProgressBar_rounds asciiBrowser (init blankPage) (667 / 10)).1.1.trans
        (by rw [mathRound_sixty_six_point_seven]; decide),
     (updateProgressBar_rounds asciiBrowser (init blankPage) (667 / 10)).1.2.trans
        (by rw [mathRound_sixty_six_point_seven]; decide)⟩,
   (updateProgressBar_rounds asciiBrowser (init blankPage)
        (4693595236650189 / 70368744177664)).1.1.trans
      (by rw [mathRound_eq (4693595236650189 / 70368744177664) 67 (by norm_num)
            (by norm_num)]; decide),
   (updateProgressBar_rounds asciiBrowser (init blankPage) (667 / 10)).2.2.2.1
      (by rw [mathRound_sixty_six_point_seven]; decide)⟩

end LangTranslator
